import Mathlib

/-!
Verification development for the MINIX file-server device multiplexer
(servers/fs/device.c).  The C source is shallowly embedded: every function
is a pure Lean function from its inputs, an explicit server state `St`, and
an oracle environment `Env` (driver replies, kernel grant results, memory
reads) to a result, a new state and a trace of externally visible events
(`Ev`): grants minted, grants revoked, messages sent to drivers, revives.
Machine integers are modelled as `Int`; device numbers use Euclidean
division and remainder, which coincide with the C shift-and-mask
arithmetic on the unsigned 16-bit values actually passed.
-/

namespace MxFS

/-! ### Constants from the MINIX headers.
The header files (minix/com.h, minix/const.h, errno.h, fcntl.h) are not
part of this repository snapshot; the values below reproduce the MINIX
3.1.2 headers the source is compiled against.  Only their distinctness
matters for the proofs, except where noted (FS_PROC_NR, O_NONBLOCK,
O_NOCTTY, byte masks). -/

def NR_DEVICES : Nat := 32
def NR_PROCS : Nat := 100
def NR_IOREQS : Nat := 64
def FS_PROC_NR : Int := 1
def RS_PROC_NR : Int := 2
def NONE : Int := 0x6183
def PID_FREE : Int := 0

def OK : Int := 0
def SUSPEND : Int := -998
def EINTR : Int := -4
def EIO : Int := -5
def ENXIO : Int := -6
def EAGAIN : Int := -11
def ENODEV : Int := -19
def EDEADSRCDST : Int := -101
def ESRCDIED : Int := -102
def EDSTDIED : Int := -103
def ELOCKED : Int := -104

def CANCEL : Int := 0
def DEV_READ : Int := 3
def DEV_WRITE : Int := 4
def DEV_IOCTL : Int := 5
def DEV_OPEN : Int := 6
def DEV_CLOSE : Int := 7
def DEV_SCATTER : Int := 8
def DEV_GATHER : Int := 9
def DEV_STATUS : Int := 13
def DEVCTL : Int := 51
def DEV_REVIVE : Int := 65
def DEV_IO_READY : Int := 66
def DEV_NO_STATUS : Int := 67
def DEV_READ_S : Int := 20
def DEV_WRITE_S : Int := 21
def DEV_SCATTER_S : Int := 22
def DEV_GATHER_S : Int := 23
def DEV_IOCTL_S : Int := 24

def O_NOCTTY : Int := 256
def O_NONBLOCK : Int := 2048
def R_BIT : Int := 4
def W_BIT : Int := 2
def READ : Int := 3
def WRITE : Int := 4
def CPF_READ : Int := 1
def CPF_WRITE : Int := 2
def GRANT_INVALID : Int := -1

/-! ### Data model -/

/-- Pointer values as seen by the multiplexer: an ordinary virtual address,
a grant id cast into the pointer slot of a message (the C source does
`m.IO_GRANT = (char *) gid`), or the address of the static server-local
iovec array `new_iovec` inside `safe_io_conversion`. -/
inductive Ptr where
  | addr : Int → Ptr
  | grant : Int → Ptr
  | serverIovec : Ptr
deriving DecidableEq, Repr

/-- MINIX message, m2 layout.  As in the real union, request and reply
field names alias the same slots (minix/com.h): DEVICE and REP_ENDPT are
m2_i1, IO_ENDPT and REP_STATUS are m2_i2, COUNT, REQUEST and REP_IO_GRANT
are m2_i3, POSITION is m2_l1, HIGHPOS is m2_l2, ADDRESS and IO_GRANT are
m2_p1. -/
structure Message where
  m_type : Int := 0
  m_source : Int := 0
  m2_i1 : Int := 0
  m2_i2 : Int := 0
  m2_i3 : Int := 0
  m2_l1 : Int := 0
  m2_l2 : Int := 0
  m2_p1 : Ptr := Ptr.addr 0
deriving DecidableEq, Repr

/-- An iovec element as read from the caller-supplied vector. -/
structure Iovec where
  iov_addr : Int := 0
  iov_size : Int := 0
deriving DecidableEq, Repr

/-- Inode record; only the fields the multiplexer touches. -/
structure Inode where
  ino : Nat := 0
  i_zone0 : Int := 0
deriving DecidableEq, Repr

/-- Tags for the per-major open and close handler (dmap_opcl). -/
inductive OpclT where
  | gen
  | tty
  | ctty
  | clone
  | nodev
deriving DecidableEq, Repr

/-- Tags for the per-major I/O handler (dmap_io). -/
inductive IoT where
  | gen
  | ctty
  | nodev
deriving DecidableEq, Repr

/-- One dmap slot: the driver endpoint and the two handler tags. -/
structure DEntry where
  dmap_driver : Int := NONE
  dmap_opcl : OpclT := OpclT.nodev
  dmap_io : IoT := IoT.nodev
deriving DecidableEq, Repr

/-- Process-table record; only the fields device.c reads or writes. -/
structure FProc where
  fp_pid : Int := PID_FREE
  fp_endpoint : Int := NONE
  fp_suspended : Bool := false
  fp_task : Int := 0
  fp_grant : Int := GRANT_INVALID
  fp_ioproc : Int := 0
  fp_sesldr : Bool := false
  fp_tty : Int := 0
deriving DecidableEq, Repr

/-- Server state: the dmap table, the process table, the current-process
globals fp and call_nr, the incoming message m_in, and the inode of the
filp slot fp_filp of the incoming file descriptor (used by clone_opcl). -/
structure St where
  dmap : Nat → DEntry
  fproc : Nat → FProc
  fpNull : Bool := false
  fpIdx : Nat := 0
  callNr : Int := 0
  m_in : Message := {}
  curFilpIno : Inode := {}

/-- Externally visible events of a run. -/
inductive Ev where
  | mintMagic : Int → Int → Ptr → Int → Int → Int → Ev
  | mintDirect : Int → Ptr → Int → Int → Int → Ev
  | revoke : Int → Ev
  | sent : Int → Message → Ev
  | sentRS : Message → Ev
  | recvRS : Ev
  | reviveEv : Int → Int → Ev
  | selectEv : Nat → Int → Int → Ev
  | suspendEv : Int → Ev
  | putInode : Inode → Ev
  | allocEv : Bool → Ev
  | copyBack : Ptr → Int → Ev
deriving DecidableEq, Repr

/-- Result of a kernel sendrec or receive: a reply message or an IPC error
code. -/
inductive SRes where
  | ok : Message → SRes
  | err : Int → SRes
deriving DecidableEq, Repr

/-- Outcome of a run: a normal return value, or a server abort (panic,
failed assert, or, in this model, exhausted recursion fuel standing for
real nontermination). -/
inductive Outc (α : Type) where
  | ok : α → Outc α
  | panic : String → Outc α
deriving DecidableEq, Repr

/-- Oracle environment: results of the kernel and collaborator calls the
multiplexer makes, indexed by call counters where the order matters.
ioctl request decoding (minix/ioctl.h macros) and fs_devctl (dmap.c) are
not in the snapshot; they are modelled as uninterpreted oracles, the
latter as a dmap transformer.  Modelled from the spec: bind installs a
new binding in the driver map (section 4.2); recovery reopens triggered
by bind are outside the scope of the claims and are not traced. -/
structure Env where
  grant : Nat → Int
  ipc : Nat → Int → Message → SRes
  okend : Int → Bool
  vec : Ptr → Nat → Iovec
  ioctlIOR : Int → Bool
  ioctlIOW : Int → Bool
  ioctlBIG : Int → Bool
  ioctlSize : Int → Int
  ioctlSizeBig : Int → Int
  allocInode : Option Inode
  allocErr : Int
  rs : Nat → SRes
  rsSend : Nat → Int
  devctl : (Nat → DEntry) → Message → Int × (Nat → DEntry)
  slotOf : Int → Nat

/-! ### Event projections -/

def mintIds (evs : List Ev) : List Int :=
  evs.filterMap fun e =>
    match e with
    | Ev.mintMagic _ _ _ _ _ g => some g
    | Ev.mintDirect _ _ _ _ g => some g
    | _ => none

def revokeIds (evs : List Ev) : List Int :=
  evs.filterMap fun e =>
    match e with
    | Ev.revoke g => some g
    | _ => none

def sentMsgs (evs : List Ev) : List (Int × Message) :=
  evs.filterMap fun e =>
    match e with
    | Ev.sent d m => some (d, m)
    | _ => none

def reviveEvs (evs : List Ev) : List (Int × Int) :=
  evs.filterMap fun e =>
    match e with
    | Ev.reviveEv p s => some (p, s)
    | _ => none

/-! ### Result records -/

/-- Result of a top-level entry point. -/
structure RunOut (α : Type) where
  res : Outc α
  st : St
  evs : List Ev

/-- Result of a dmap_io handler call: handler return value, the message
after the call (sendrec overwrites it on success only), state, IPC call
counter, events. -/
structure CallOut where
  r : Outc Int
  msg : Message
  st : St
  ic : Nat
  evs : List Ev

/-- Result of a dmap_opcl handler call. -/
structure OpclOut where
  r : Outc Int
  st : St
  ic : Nat
  evs : List Ev

/-- Outputs of safe_io_conversion through its pointer arguments. -/
structure ConvR where
  safe : Bool
  gid : Int
  op : Int
  io_ept : Int
  buf : Ptr
  gids : List Int
  pos : Int
deriving DecidableEq, Repr

/-- Result of safe_io_conversion: outputs, next grant counter, events. -/
structure ConvOut where
  res : Outc ConvR
  gctr : Nat
  evs : List Ev

/-! ### Helpers shared by the embedded functions -/

/-- Update the record of the current process fp. -/
def setFp (st : St) (f : FProc → FProc) : St :=
  { st with fproc := fun i => if i = st.fpIdx then f (st.fproc i) else st.fproc i }

/-- Modelled from the spec: dmap_unmap_by_endpt (dmap.c, not in the
snapshot) clears every binding that references the dead endpoint
(section 4.2). -/
def dmap_unmap_by_endpt (st : St) (task : Int) : St :=
  { st with dmap := fun d =>
      if (st.dmap d).dmap_driver = task then
        { st.dmap d with dmap_driver := NONE }
      else st.dmap d }

/-! ### safe_io_conversion and safe_io_cleanup -/

/-- Common epilogue of safe_io_conversion: if the grant is valid the
operation was converted and the I/O endpoint becomes the file server. -/
def convFinish (gid op io_ept : Int) (buf : Ptr) (gids : List Int)
    (pos : Int) (g : Nat) (evs : List Ev) : ConvOut :=
  if gid > GRANT_INVALID then
    ⟨Outc.ok ⟨true, gid, op, FS_PROC_NR, buf, gids, pos⟩, g, evs⟩
  else
    ⟨Outc.ok ⟨false, gid, op, io_ept, buf, gids, pos⟩, g, evs⟩

/-- The gather and scatter per-element grant loop of safe_io_conversion:
for each iovec element mint one grant in the direction acc; panic when
the vector exceeds NR_IOREQS or a grant fails. -/
def grantVec (env : Env) (driver acc : Int) (vbase : Ptr) :
    Nat → Nat → Nat → Outc (List Int) × Nat × List Ev
  | 0, _, g => (Outc.ok [], g, [])
  | toGo+1, j, g =>
    if NR_IOREQS ≤ j then (Outc.panic "vec too big", g, [])
    else
      let e := env.vec vbase j
      let gid := env.grant g
      if gid > GRANT_INVALID then
        let ev := Ev.mintDirect driver (Ptr.addr e.iov_addr) e.iov_size acc gid
        match grantVec env driver acc vbase toGo (j+1) (g+1) with
        | (Outc.ok rest, g2, evs) => (Outc.ok (gid :: rest), g2, ev :: evs)
        | (Outc.panic s, g2, evs) => (Outc.panic s, g2, ev :: evs)
      else (Outc.panic "grant to iovec buf failed", g+1, [])

/-- Embedding of safe_io_conversion (device.c lines 168 to 272): rewrite a
request into its grant-bearing safe variant.  Reads, writes: one magic
grant over the caller buffer, direction opposite the operation.  Gather,
scatter: one direct grant over the server-local vector plus one grant per
element; the buffer pointer is replaced by the server-local vector.
Ioctl: the old endpoint is stored in the position field and one grant of
the decoded size and direction is minted.  Other operations are left
alone. -/
def safe_io_conversion (env : Env) (st : St) (driver op io_ept : Int)
    (buf : Ptr) (bytes pos : Int) (g0 : Nat) : ConvOut :=
  if op = DEV_READ ∨ op = DEV_WRITE then
    let op2 := if op = DEV_READ then DEV_READ_S else DEV_WRITE_S
    let acc := if op2 = DEV_READ_S then CPF_WRITE else CPF_READ
    let gid := env.grant g0
    if gid < 0 then ⟨Outc.panic "cpf_grant_magic of buffer failed", g0+1, []⟩
    else convFinish gid op2 io_ept buf [] pos (g0+1)
      [Ev.mintMagic driver io_ept buf bytes acc gid]
  else if op = DEV_GATHER ∨ op = DEV_SCATTER then
    let op2 := if op = DEV_GATHER then DEV_GATHER_S else DEV_SCATTER_S
    let gid := env.grant g0
    if gid < 0 then ⟨Outc.panic "cpf_grant_direct of vector failed", g0+1, []⟩
    else
      let ev0 := Ev.mintDirect driver Ptr.serverIovec (bytes * 8)
        (Int.lor CPF_READ CPF_WRITE) gid
      let acc := if op2 = DEV_GATHER_S then CPF_WRITE else CPF_READ
      match grantVec env driver acc buf bytes.toNat 0 (g0+1) with
      | (Outc.ok gids, g2, evs) =>
          convFinish gid op2 io_ept Ptr.serverIovec gids pos g2 (ev0 :: evs)
      | (Outc.panic s, g2, evs) => ⟨Outc.panic s, g2, ev0 :: evs⟩
  else if op = DEV_IOCTL then
    let pos2 := io_ept
    let req := st.m_in.m2_i3
    let acc := Int.lor (if env.ioctlIOR req then CPF_WRITE else 0)
      (if env.ioctlIOW req then CPF_READ else 0)
    let size := if env.ioctlBIG req then env.ioctlSizeBig req else env.ioctlSize req
    let gid := env.grant g0
    if gid < 0 then ⟨Outc.panic "cpf_grant_magic failed on ioctl", g0+1, []⟩
    else convFinish gid DEV_IOCTL_S io_ept buf [] pos2 (g0+1)
      [Ev.mintMagic driver io_ept buf size acc gid]
  else convFinish GRANT_INVALID op io_ept buf [] pos g0 []

/-- Embedding of safe_io_cleanup (device.c lines 277 to 291): revoke the
outer grant and then each vector sub-grant. -/
def safe_io_cleanup (gid : Int) (gids : List Int) : List Ev :=
  Ev.revoke gid :: gids.map Ev.revoke

/-! ### gen_io, ctty_io, no_dev_io and the dmap_io dispatcher -/

/-- Embedding of gen_io (device.c lines 653 to 691): one sendrec to the
task.  On a dead-peer error the endpoint is unmapped and the error
returned with the message unchanged; ELOCKED is returned with the message
unchanged; any other error aborts.  On success, a reply naming a
different endpoint yields EIO, otherwise OK; either way the reply
overwrites the message. -/
def gen_io (env : Env) (task : Int) (m : Message) (st : St) (ic : Nat) : CallOut :=
  let proc_e := m.m2_i2
  match env.ipc ic task m with
  | SRes.err c =>
    if c = EDEADSRCDST ∨ c = EDSTDIED ∨ c = ESRCDIED then
      ⟨Outc.ok c, m, dmap_unmap_by_endpt st task, ic+1, [Ev.sent task m]⟩
    else if c = ELOCKED then ⟨Outc.ok c, m, st, ic+1, [Ev.sent task m]⟩
    else ⟨Outc.panic "call_task cant send or receive", m, st, ic+1, [Ev.sent task m]⟩
  | SRes.ok rep =>
    if rep.m2_i1 ≠ proc_e then ⟨Outc.ok EIO, rep, st, ic+1, [Ev.sent task m]⟩
    else ⟨Outc.ok OK, rep, st, ic+1, [Ev.sent task m]⟩

/-- Dispatcher for the dmap_io handler tags, with fuel bounding the
ctty_io indirection (a cyclic dmap configuration would recurse forever in
the C source; fuel exhaustion models that nontermination).  The ctty case
embeds ctty_io (device.c lines 696 to 729): with no controlling tty the
reply status becomes EIO without any driver call; otherwise the minor of
the controlling tty is substituted into the message and the request is
redispatched through the dmap entry of the controlling tty major,
returning EIO without dispatch when that driver is absent or stale. -/
def dmapIoCall (env : Env) (fuel : Nat) (t : IoT) (task : Int) (m : Message)
    (st : St) (ic : Nat) : CallOut :=
  match t with
  | IoT.gen => gen_io env task m st ic
  | IoT.nodev => ⟨Outc.ok EIO, m, st, ic, []⟩
  | IoT.ctty =>
    match fuel with
    | 0 => ⟨Outc.panic "ctty indirection exhausted", m, st, ic, []⟩
    | fuel+1 =>
      if st.fpNull then ⟨Outc.panic "ctty_io on NULL fp", m, st, ic, []⟩
      else
        let fpr := st.fproc st.fpIdx
        if fpr.fp_tty = 0 then ⟨Outc.ok OK, { m with m2_i2 := EIO }, st, ic, []⟩
        else
          let dp := st.dmap ((fpr.fp_tty / 256) % 256).toNat
          let m2 := { m with m2_i1 := fpr.fp_tty % 256 }
          if dp.dmap_driver = NONE then ⟨Outc.ok EIO, m2, st, ic, []⟩
          else if ¬ env.okend dp.dmap_driver then ⟨Outc.ok EIO, m2, st, ic, []⟩
          else
            let c := dmapIoCall env fuel dp.dmap_io dp.dmap_driver m2 st ic
            match c.r with
            | Outc.panic s => ⟨Outc.panic s, c.msg, c.st, c.ic, c.evs⟩
            | Outc.ok _ => ⟨Outc.ok OK, c.msg, c.st, c.ic, c.evs⟩

/-- Fuel ample for any acyclic handler chain over NR_DEVICES majors. -/
def ioFuel : Nat := 40

/-- Embedding of ctty_io at the standard fuel. -/
def ctty_io (env : Env) (task : Int) (m : Message) (st : St) (ic : Nat) : CallOut :=
  dmapIoCall env ioFuel IoT.ctty task m st ic

/-- Embedding of no_dev_io (device.c lines 747 to 752). -/
def no_dev_io (env : Env) (task : Int) (m : Message) (st : St) (ic : Nat) : CallOut :=
  dmapIoCall env ioFuel IoT.nodev task m st ic

/-! ### dev_io -/

/-- Embedding of dev_io (device.c lines 414 to 523).  Resolve the dmap
entry of the major; ENXIO when the driver is absent or stale; convert to
the safe variant (aborting if the conversion substituted the buffer,
which it always does for vectored ops); dispatch through the dmap_io
handler; EIO with cleanup when the driver vanished during the call; on a
SUSPEND reply either abort (vectored or NULL fp), send a CANCEL carrying
the same grant and I/O endpoint and remap EINTR to EAGAIN (O_NONBLOCK),
or suspend the caller, park the grant in fp_grant and fp_ioproc and
return SUSPEND; otherwise clean up and return the reply status. -/
def dev_io (env : Env) (st : St) (op dev proc_e : Int) (buf : Ptr)
    (pos bytes flags : Int) : RunOut Int :=
  let dmaj := ((dev / 256) % 256).toNat
  let dp := st.dmap dmaj
  if dp.dmap_driver = NONE then ⟨Outc.ok ENXIO, st, []⟩
  else if ¬ env.okend dp.dmap_driver then ⟨Outc.ok ENXIO, st, []⟩
  else
    let conv := safe_io_conversion env st dp.dmap_driver op proc_e buf bytes pos 0
    match conv.res with
    | Outc.panic s => ⟨Outc.panic s, st, conv.evs⟩
    | Outc.ok cr =>
      if buf ≠ cr.buf then
        ⟨Outc.panic "dev_io safe_io_conversion changed buffer", st, conv.evs⟩
      else
        let m0 : Message :=
          { m_type := cr.op
            m2_i1 := dev % 256
            m2_i2 := cr.io_ept
            m2_i3 := bytes
            m2_l1 := cr.pos
            m2_l2 := 0
            m2_p1 := if cr.safe then Ptr.grant cr.gid else buf }
        let ioproc := cr.io_ept
        let c1 := dmapIoCall env ioFuel dp.dmap_io dp.dmap_driver m0 st 0
        match c1.r with
        | Outc.panic s => ⟨Outc.panic s, c1.st, conv.evs ++ c1.evs⟩
        | Outc.ok _ =>
          if (c1.st.dmap dmaj).dmap_driver = NONE then
            ⟨Outc.ok EIO, c1.st,
              conv.evs ++ c1.evs ++
                (if cr.safe then safe_io_cleanup cr.gid cr.gids else [])⟩
          else if c1.msg.m2_i2 = SUSPEND then
            if 0 < cr.gids.length then
              ⟨Outc.panic "SUSPEND on vectored i o", c1.st, conv.evs ++ c1.evs⟩
            else if c1.st.fpNull then
              ⟨Outc.panic "SUSPEND on NULL fp", c1.st, conv.evs ++ c1.evs⟩
            else if Int.land flags O_NONBLOCK ≠ 0 then
              let cm : Message :=
                { c1.msg with
                  m_type := CANCEL
                  m2_i2 := ioproc
                  m2_p1 := Ptr.grant cr.gid
                  m2_i3 := if c1.st.callNr = READ then R_BIT
                           else if c1.st.callNr = WRITE then W_BIT else 0
                  m2_i1 := dev % 256 }
              let c2 := dmapIoCall env ioFuel (c1.st.dmap dmaj).dmap_io
                (c1.st.dmap dmaj).dmap_driver cm c1.st c1.ic
              match c2.r with
              | Outc.panic s => ⟨Outc.panic s, c2.st, conv.evs ++ c1.evs ++ c2.evs⟩
              | Outc.ok _ =>
                let rs := if c2.msg.m2_i2 = EINTR then EAGAIN else c2.msg.m2_i2
                ⟨Outc.ok rs, c2.st,
                  conv.evs ++ c1.evs ++ c2.evs ++
                    (if cr.safe then safe_io_cleanup cr.gid cr.gids else [])⟩
            else
              let drv := (c1.st.dmap dmaj).dmap_driver
              let st2 := setFp c1.st fun f =>
                { f with fp_suspended := true, fp_task := -drv }
              if (c1.st.fproc c1.st.fpIdx).fp_grant > GRANT_INVALID then
                ⟨Outc.panic "assert fp_grant not valid failed", st2,
                  conv.evs ++ c1.evs ++ [Ev.suspendEv drv]⟩
              else
                let st3 := setFp st2 fun f =>
                  { f with fp_grant := cr.gid, fp_ioproc := ioproc }
                ⟨Outc.ok SUSPEND, st3, conv.evs ++ c1.evs ++ [Ev.suspendEv drv]⟩
          else
            ⟨Outc.ok c1.msg.m2_i2, c1.st,
              conv.evs ++ c1.evs ++
                (if cr.safe then safe_io_cleanup cr.gid cr.gids else [])⟩

/-! ### dev_bio -/

/-- The wait-for-new-driver loop of dev_bio: park on RS messages, apply
DEVCTL commands via fs_devctl, reply, and leave once the major is mapped
again. -/
def rsWait (env : Env) (dmaj : Nat) :
    Nat → St → Nat → Outc Unit × St × Nat × List Ev
  | 0, st, rc => (Outc.panic "rs wait exhausted", st, rc, [])
  | fuel+1, st, rc =>
    match env.rs rc with
    | SRes.err _ => (Outc.panic "dev_bio unable to receive from RS", st, rc+1, [Ev.recvRS])
    | SRes.ok mrs =>
      if mrs.m_type = DEVCTL then
        let rd := env.devctl st.dmap mrs
        let st2 := { st with dmap := rd.2 }
        let reply := { mrs with m_type := rd.1 }
        if env.rsSend rc ≠ OK then
          (Outc.panic "dev_bio unable to send to RS", st2, rc+1,
            [Ev.recvRS, Ev.sentRS reply])
        else if (st2.dmap dmaj).dmap_driver ≠ NONE then
          (Outc.ok (), st2, rc+1, [Ev.recvRS, Ev.sentRS reply])
        else
          match rsWait env dmaj fuel st2 (rc+1) with
          | (o, st3, rc3, evs) => (o, st3, rc3, Ev.recvRS :: Ev.sentRS reply :: evs)
      else (Outc.panic "dev_bio got message from RS", st, rc+1, [Ev.recvRS])

/-- One iteration of the dev_bio retry loop, with fuel bounding the number
of driver restarts (the C source can loop forever when drivers keep
dying). -/
def bioLoop (env : Env) :
    Nat → St → Int → Int → Int → Ptr → Int → Int → Nat → Nat → Nat → RunOut Int
  | 0, st, _, _, _, _, _, _, _, _, _ => ⟨Outc.panic "dev_bio retries exhausted", st, []⟩
  | fuel+1, st, op, dev, proc_e, buf, pos, bytes, gc, ic, rc =>
    let dmaj := ((dev / 256) % 256).toNat
    let dp := st.dmap dmaj
    if dp.dmap_driver = NONE then ⟨Outc.ok ENXIO, st, []⟩
    else
      let conv := safe_io_conversion env st dp.dmap_driver op proc_e buf bytes pos gc
      match conv.res with
      | Outc.panic s => ⟨Outc.panic s, st, conv.evs⟩
      | Outc.ok cr =>
        let m0 : Message :=
          { m_type := cr.op
            m2_i1 := dev % 256
            m2_i2 := cr.io_ept
            m2_i3 := bytes
            m2_l1 := cr.pos
            m2_l2 := 0
            m2_p1 := if cr.safe then Ptr.grant cr.gid else buf }
        let c1 := dmapIoCall env ioFuel dp.dmap_io dp.dmap_driver m0 st ic
        match c1.r with
        | Outc.panic s => ⟨Outc.panic s, c1.st, conv.evs ++ c1.evs⟩
        | Outc.ok _ =>
          let evA := conv.evs ++ c1.evs ++
            (if cr.safe then safe_io_cleanup cr.gid cr.gids else [])
          if (c1.st.dmap dmaj).dmap_driver = NONE then
            match rsWait env dmaj 8 c1.st rc with
            | (Outc.panic s, st2, _, evs2) => ⟨Outc.panic s, st2, evA ++ evs2⟩
            | (Outc.ok _, st2, rc2, evs2) =>
              match bioLoop env fuel st2 op dev proc_e buf cr.pos bytes conv.gctr c1.ic rc2 with
              | ⟨o, st3, evs3⟩ => ⟨o, st3, evA ++ evs2 ++ evs3⟩
          else if c1.msg.m2_i2 = SUSPEND then
            ⟨Outc.panic "dev_bio driver returned SUSPEND", c1.st, evA⟩
          else
            let evB := if buf ≠ cr.buf then evA ++ [Ev.copyBack buf bytes] else evA
            ⟨Outc.ok c1.msg.m2_i2, c1.st, evB⟩

/-- Embedding of dev_bio (device.c lines 296 to 409): block I/O for the
file server itself; aborts when called on behalf of anybody else; safe
cleanup runs right after every dispatch whether the call succeeded or
not; on a vanished driver the request is retried against the rebound
driver; a SUSPEND reply aborts the server. -/
def dev_bio (env : Env) (st : St) (op dev proc_e : Int) (buf : Ptr)
    (pos bytes : Int) : RunOut Int :=
  if proc_e ≠ FS_PROC_NR then ⟨Outc.panic "doing dev_bio for non-self", st, []⟩
  else bioLoop env 8 st op dev proc_e buf pos bytes 0 0 0

/-! ### Open and close policies -/

/-- The request message gen_opcl builds for the driver. -/
def genOpclMsg (op dev proc_e flags : Int) : Message :=
  { m_type := op, m2_i1 := dev % 256, m2_i2 := proc_e, m2_i3 := flags }

/-- Embedding of gen_opcl (device.c lines 528 to 555): forward the open or
close to the driver of the major; ENXIO when unmapped; the returned value
is the REP_STATUS slot of the message after the dispatch. -/
def gen_opcl (env : Env) (st : St) (op dev proc_e flags : Int) (ic : Nat) : OpclOut :=
  let dmaj := ((dev / 256) % 256).toNat
  let dp := st.dmap dmaj
  let m := genOpclMsg op dev proc_e flags
  if dp.dmap_driver = NONE then ⟨Outc.ok ENXIO, st, ic, []⟩
  else
    let c := dmapIoCall env ioFuel dp.dmap_io dp.dmap_driver m st ic
    match c.r with
    | Outc.panic s => ⟨Outc.panic s, c.st, c.ic, c.evs⟩
    | Outc.ok _ => ⟨Outc.ok c.msg.m2_i2, c.st, c.ic, c.evs⟩

/-- The flag word tty_opcl actually forwards (device.c lines 571 to 582):
O_NOCTTY is forced when the caller is not a session leader, already has a
controlling tty, or some live process already has this device as its
controlling tty. -/
def ttyFlags (st : St) (dev flags : Int) : Int :=
  let fpr := st.fproc st.fpIdx
  if ¬ fpr.fp_sesldr ∨ fpr.fp_tty ≠ 0 then Int.lor flags O_NOCTTY
  else if (List.range NR_PROCS).any (fun i =>
      decide ((st.fproc i).fp_pid ≠ PID_FREE ∧ (st.fproc i).fp_tty = dev)) then
    Int.lor flags O_NOCTTY
  else flags

/-- Embedding of tty_opcl (device.c lines 560 to 592): forward through
gen_opcl with the possibly forced flag word; when the result is the
sentinel 1, record the device as the controlling tty of the caller and
return OK. -/
def tty_opcl (env : Env) (st : St) (op dev proc_e flags : Int) (ic : Nat) : OpclOut :=
  if st.fpNull then ⟨Outc.panic "tty_opcl on NULL fp", st, ic, []⟩
  else
    let g := gen_opcl env st op dev proc_e (ttyFlags st dev flags) ic
    match g.r with
    | Outc.panic s => ⟨Outc.panic s, g.st, g.ic, g.evs⟩
    | Outc.ok r =>
      if r = 1 then
        ⟨Outc.ok OK, setFp g.st (fun f => { f with fp_tty := dev }), g.ic, g.evs⟩
      else ⟨Outc.ok r, g.st, g.ic, g.evs⟩

/-- Embedding of ctty_opcl (device.c lines 597 to 608): no driver call;
ENXIO without a controlling tty, OK otherwise. -/
def ctty_opcl (env : Env) (st : St) (op dev proc_e flags : Int) (ic : Nat) : OpclOut :=
  if st.fpNull then ⟨Outc.panic "ctty_opcl on NULL fp", st, ic, []⟩
  else if (st.fproc st.fpIdx).fp_tty = 0 then ⟨Outc.ok ENXIO, st, ic, []⟩
  else ⟨Outc.ok OK, st, ic, []⟩

/-- Embedding of no_dev (device.c lines 734 to 742). -/
def no_dev (env : Env) (st : St) (op dev proc_e flags : Int) (ic : Nat) : OpclOut :=
  ⟨Outc.ok ENODEV, st, ic, []⟩

/-- Embedding of clone_opcl (device.c lines 757 to 822), with fuel for the
single self-call that issues the compensating close.  On DEV_OPEN with a
nonnegative reply that differs from the requested minor, a fresh
character-special inode bound to the new device number replaces the inode
of the filp of the calling process, the old inode reference is dropped,
and the status is rewritten to OK; when inode allocation fails a
DEV_CLOSE for the new device is sent and err_code is returned. -/
def clone_opcl (env : Env) :
    Nat → St → Int → Int → Int → Int → Nat → OpclOut
  | 0, st, _, _, _, _, ic => ⟨Outc.panic "clone recursion exhausted", st, ic, []⟩
  | fuel+1, st, op, dev, proc_e, flags, ic =>
    let dmaj := ((dev / 256) % 256).toNat
    let dp := st.dmap dmaj
    let minor := dev % 256
    let m : Message := { m_type := op, m2_i1 := minor, m2_i2 := proc_e, m2_i3 := flags }
    if dp.dmap_driver = NONE then ⟨Outc.ok ENXIO, st, ic, []⟩
    else if ¬ env.okend dp.dmap_driver then ⟨Outc.ok ENXIO, st, ic, []⟩
    else
      let c := dmapIoCall env ioFuel dp.dmap_io dp.dmap_driver m st ic
      match c.r with
      | Outc.panic s => ⟨Outc.panic s, c.st, c.ic, c.evs⟩
      | Outc.ok r =>
        if r ≠ OK then ⟨Outc.ok r, c.st, c.ic, c.evs⟩
        else if op = DEV_OPEN ∧ 0 ≤ c.msg.m2_i2 then
          if c.msg.m2_i2 ≠ minor then
            let dev2 : Int := (((dev.toNat / 256 * 256) ||| c.msg.m2_i2.toNat : Nat) : Int)
            match env.allocInode with
            | none =>
              let inner := clone_opcl env fuel c.st DEV_CLOSE dev2 proc_e 0 c.ic
              match inner.r with
              | Outc.panic s =>
                ⟨Outc.panic s, inner.st, inner.ic, c.evs ++ Ev.allocEv false :: inner.evs⟩
              | Outc.ok _ =>
                ⟨Outc.ok env.allocErr, inner.st, inner.ic,
                  c.evs ++ Ev.allocEv false :: inner.evs⟩
            | some ip =>
              if c.st.fpNull then ⟨Outc.panic "clone_opcl on NULL fp", c.st, c.ic, c.evs⟩
              else
                let ip2 := { ip with i_zone0 := dev2 }
                let old := c.st.curFilpIno
                ⟨Outc.ok OK, { c.st with curFilpIno := ip2 }, c.ic,
                  c.evs ++ [Ev.allocEv true, Ev.putInode old]⟩
          else ⟨Outc.ok OK, c.st, c.ic, c.evs⟩
        else ⟨Outc.ok c.msg.m2_i2, c.st, c.ic, c.evs⟩

/-- Dispatcher for the dmap_opcl handler tags. -/
def dmapOpclCall (env : Env) (t : OpclT) (st : St) (op dev proc_e flags : Int)
    (ic : Nat) : OpclOut :=
  match t with
  | OpclT.gen => gen_opcl env st op dev proc_e flags ic
  | OpclT.tty => tty_opcl env st op dev proc_e flags ic
  | OpclT.ctty => ctty_opcl env st op dev proc_e flags ic
  | OpclT.clone => clone_opcl env 4 st op dev proc_e flags ic
  | OpclT.nodev => no_dev env st op dev proc_e flags ic

/-- Embedding of dev_open (device.c lines 48 to 68): a major at or beyond
NR_DEVICES is replaced by 0; ENXIO when the resolved slot has no driver;
otherwise the open is dispatched through the open and close handler of
the slot and a SUSPEND result aborts the server. -/
def dev_open (env : Env) (st : St) (dev proc flags : Int) : RunOut Int :=
  let major0 := (dev / 256) % 256
  let major := if (NR_DEVICES : Int) ≤ major0 then 0 else major0.toNat
  let dp := st.dmap major
  if dp.dmap_driver = NONE then ⟨Outc.ok ENXIO, st, []⟩
  else
    let o := dmapOpclCall env dp.dmap_opcl st DEV_OPEN dev proc flags 0
    match o.r with
    | Outc.panic s => ⟨Outc.panic s, o.st, o.evs⟩
    | Outc.ok r =>
      if r = SUSPEND then ⟨Outc.panic "suspend on open", o.st, o.evs⟩
      else ⟨Outc.ok r, o.st, o.evs⟩

/-- Embedding of pm_setsid (device.c lines 613 to 627): make the process a
session leader with no controlling tty. -/
def pm_setsid (env : Env) (st : St) (proc_e : Int) : St :=
  let slot := env.slotOf proc_e
  { st with fproc := fun i =>
      if i = slot then { st.fproc i with fp_sesldr := true, fp_tty := 0 }
      else st.fproc i }

/-! ### dev_status -/

/-- Embedding of suspended_ep (device.c lines 86 to 102): the endpoint of
the live suspended process whose fp_task and fp_grant match the driver
and grant, or NONE. -/
def suspended_ep (st : St) (driver g : Int) : Int :=
  match (List.range NR_PROCS).find? (fun i =>
      decide ((st.fproc i).fp_pid ≠ PID_FREE ∧ (st.fproc i).fp_suspended = true ∧
        (st.fproc i).fp_task = -driver ∧ (st.fproc i).fp_grant = g)) with
  | some i => (st.fproc i).fp_endpoint
  | none => NONE

/-- The DEV_STATUS pull loop of dev_status (device.c lines 121 to 160).
The revive of a waiter is external (fs/pipe.c) and recorded as an event;
the process table is not modified by this module on that path. -/
def devStatusLoop (env : Env) (st : St) (src : Int) (d : Nat) :
    Nat → Nat → Outc Unit × List Ev
  | 0, _ => (Outc.panic "status loop exhausted", [])
  | fuel+1, ic =>
    let stm : Message := { m_type := DEV_STATUS }
    match env.ipc ic src stm with
    | SRes.err c =>
      if c = EDEADSRCDST ∨ c = EDSTDIED ∨ c = ESRCDIED then (Outc.ok (), [Ev.sent src stm])
      else (Outc.panic "couldnt sendrec for DEV_STATUS", [Ev.sent src stm])
    | SRes.ok rep =>
      if rep.m_type = DEV_REVIVE then
        let e0 := rep.m2_i1
        if e0 = FS_PROC_NR then
          let e1 := suspended_ep st src rep.m2_i3
          if e1 = NONE then
            match devStatusLoop env st src d fuel (ic+1) with
            | (o, evs) => (o, Ev.sent src stm :: evs)
          else
            match devStatusLoop env st src d fuel (ic+1) with
            | (o, evs) => (o, Ev.sent src stm :: Ev.reviveEv e1 rep.m2_i2 :: evs)
        else
          match devStatusLoop env st src d fuel (ic+1) with
          | (o, evs) => (o, Ev.sent src stm :: Ev.reviveEv e0 rep.m2_i2 :: evs)
      else if rep.m_type = DEV_IO_READY then
        match devStatusLoop env st src d fuel (ic+1) with
        | (o, evs) => (o, Ev.sent src stm :: Ev.selectEv d rep.m2_i1 rep.m2_i2 :: evs)
      else (Outc.ok (), [Ev.sent src stm])

/-- Embedding of dev_status (device.c lines 107 to 163): when the source
of the alert is not the bound driver of any major, return immediately;
otherwise pull DEV_STATUS replies until the driver has no more. -/
def dev_status (env : Env) (st : St) (m : Message) : RunOut Unit :=
  match (List.range NR_DEVICES).find? (fun d =>
      decide ((st.dmap d).dmap_driver ≠ NONE ∧ (st.dmap d).dmap_driver = m.m_source)) with
  | none => ⟨Outc.ok (), st, []⟩
  | some d =>
    match devStatusLoop env st m.m_source d 8 0 with
    | (o, evs) => ⟨o, st, evs⟩

/-! ### Trace bookkeeping lemmas -/

theorem mintIds_append (a b : List Ev) : mintIds (a ++ b) = mintIds a ++ mintIds b := by
  simp [mintIds]

theorem revokeIds_append (a b : List Ev) : revokeIds (a ++ b) = revokeIds a ++ revokeIds b := by
  simp [revokeIds]

theorem sentMsgs_append (a b : List Ev) : sentMsgs (a ++ b) = sentMsgs a ++ sentMsgs b := by
  simp [sentMsgs]

theorem revokeIds_map_revoke (gs : List Int) :
    revokeIds (gs.map Ev.revoke) = gs := by
  induction gs with
  | nil => rfl
  | cons x xs ih => simpa [revokeIds] using ih

theorem mintIds_map_revoke (gs : List Int) :
    mintIds (gs.map Ev.revoke) = [] := by
  induction gs with
  | nil => rfl
  | cons x xs ih => simpa [mintIds] using ih

theorem sentMsgs_map_revoke (gs : List Int) :
    sentMsgs (gs.map Ev.revoke) = [] := by
  induction gs with
  | nil => rfl
  | cons x xs ih => simpa [sentMsgs] using ih

theorem mintIds_mintMagic_cons (d o : Int) (p : Ptr) (n a g : Int) (l : List Ev) :
    mintIds (Ev.mintMagic d o p n a g :: l) = g :: mintIds l := rfl

theorem mintIds_mintDirect_cons (d : Int) (p : Ptr) (n a g : Int) (l : List Ev) :
    mintIds (Ev.mintDirect d p n a g :: l) = g :: mintIds l := rfl

theorem revokeIds_mintMagic_cons (d o : Int) (p : Ptr) (n a g : Int) (l : List Ev) :
    revokeIds (Ev.mintMagic d o p n a g :: l) = revokeIds l := rfl

theorem revokeIds_mintDirect_cons (d : Int) (p : Ptr) (n a g : Int) (l : List Ev) :
    revokeIds (Ev.mintDirect d p n a g :: l) = revokeIds l := rfl

theorem revokeIds_cleanup (g : Int) (gs : List Int) :
    revokeIds (safe_io_cleanup g gs) = g :: gs := by
  simpa [safe_io_cleanup, revokeIds] using revokeIds_map_revoke gs

theorem mintIds_cleanup (g : Int) (gs : List Int) :
    mintIds (safe_io_cleanup g gs) = [] := by
  simpa [safe_io_cleanup, mintIds] using mintIds_map_revoke gs

theorem sentMsgs_cleanup (g : Int) (gs : List Int) :
    sentMsgs (safe_io_cleanup g gs) = [] := by
  simpa [safe_io_cleanup, sentMsgs] using sentMsgs_map_revoke gs

theorem gen_io_evs (env : Env) (task : Int) (m : Message) (st : St) (ic : Nat) :
    (gen_io env task m st ic).evs = [Ev.sent task m] := by
  unfold gen_io
  cases env.ipc ic task m
  case ok rep => dsimp only; split <;> rfl
  case err c => dsimp only; split
                · rfl
                · split <;> rfl

/-- No dmap_io handler mints or revokes grants on its own. -/
theorem dmapIoCall_no_grants (env : Env) :
    ∀ (fuel : Nat) (t : IoT) (task : Int) (m : Message) (st : St) (ic : Nat),
      mintIds (dmapIoCall env fuel t task m st ic).evs = [] ∧
      revokeIds (dmapIoCall env fuel t task m st ic).evs = [] := by
  intro fuel
  induction fuel with
  | zero =>
    intro t task m st ic
    cases t <;> simp [dmapIoCall, gen_io_evs, mintIds, revokeIds]
  | succ n ih =>
    intro t task m st ic
    cases t with
    | gen => simp [dmapIoCall, gen_io_evs, mintIds, revokeIds]
    | nodev => simp [dmapIoCall, mintIds, revokeIds]
    | ctty =>
      simp only [dmapIoCall]
      split
      · simp [mintIds, revokeIds]
      · split
        · simp [mintIds, revokeIds]
        · split
          · simp [mintIds, revokeIds]
          · split
            · simp [mintIds, revokeIds]
            · have h := ih ((st.dmap ((st.fproc st.fpIdx).fp_tty / 256 % 256).toNat).dmap_io)
                ((st.dmap ((st.fproc st.fpIdx).fp_tty / 256 % 256).toNat).dmap_driver)
                { m with m2_i1 := (st.fproc st.fpIdx).fp_tty % 256 } st ic
              split <;> simpa using h

theorem mintIds_recvRS_cons (l : List Ev) : mintIds (Ev.recvRS :: l) = mintIds l := rfl

theorem mintIds_sentRS_cons (m : Message) (l : List Ev) :
    mintIds (Ev.sentRS m :: l) = mintIds l := rfl

theorem revokeIds_recvRS_cons (l : List Ev) : revokeIds (Ev.recvRS :: l) = revokeIds l := rfl

theorem revokeIds_sentRS_cons (m : Message) (l : List Ev) :
    revokeIds (Ev.sentRS m :: l) = revokeIds l := rfl

theorem mintIds_copyBack (p : Ptr) (n : Int) : mintIds [Ev.copyBack p n] = [] := rfl

theorem revokeIds_copyBack (p : Ptr) (n : Int) : revokeIds [Ev.copyBack p n] = [] := rfl

theorem dmapIoCall_mint (env : Env) (fuel : Nat) (t : IoT) (task : Int)
    (m : Message) (st : St) (ic : Nat) :
    mintIds (dmapIoCall env fuel t task m st ic).evs = [] :=
  (dmapIoCall_no_grants env fuel t task m st ic).1

theorem dmapIoCall_revoke (env : Env) (fuel : Nat) (t : IoT) (task : Int)
    (m : Message) (st : St) (ic : Nat) :
    revokeIds (dmapIoCall env fuel t task m st ic).evs = [] :=
  (dmapIoCall_no_grants env fuel t task m st ic).2

theorem grantVec_no_sent (env : Env) (driver acc : Int) (vbase : Ptr) :
    ∀ (toGo j g : Nat), sentMsgs (grantVec env driver acc vbase toGo j g).2.2 = [] := by
  intro toGo
  induction toGo with
  | zero => intro j g; simp [grantVec, sentMsgs]
  | succ n ih =>
    intro j g
    simp only [grantVec]
    split
    · simp [sentMsgs]
    · split
      · split
        all_goals
          rename_i x g3 evs3 hrec
          have hx := ih (j+1) (g+1)
          rw [hrec] at hx
          simpa [sentMsgs] using hx
      · simp [sentMsgs]

theorem grantVec_events (env : Env) (driver acc : Int) (vbase : Ptr) :
    ∀ (toGo j g : Nat) (gids : List Int) (g2 : Nat) (evs : List Ev),
      grantVec env driver acc vbase toGo j g = (Outc.ok gids, g2, evs) →
      mintIds evs = gids ∧ revokeIds evs = [] := by
  intro toGo
  induction toGo with
  | zero =>
    intro j g gids g2 evs h
    simp [grantVec, Prod.ext_iff] at h
    obtain ⟨h1, _, h3⟩ := h
    subst h3
    simp [← h1, mintIds, revokeIds]
  | succ n ih =>
    intro j g gids g2 evs h
    simp only [grantVec] at h
    split at h
    · simp [Prod.ext_iff] at h
    · split at h
      · split at h
        · rename_i rest g3 evs3 hrec
          simp [Prod.ext_iff] at h
          obtain ⟨h1, _, h3⟩ := h
          obtain ⟨hm, hr⟩ := ih (j+1) (g+1) rest g3 evs3 hrec
          subst h3
          simp [← h1, mintIds, revokeIds] at hm hr ⊢
          exact ⟨hm, hr⟩
        · rename_i s g3 evs3 hrec
          simp [Prod.ext_iff] at h
      · simp [Prod.ext_iff] at h

/-! ### safe_io_conversion characterizations -/

/-- Full characterization of the read and write conversion: one magic
grant over the caller buffer in the address space of the I/O endpoint,
direction opposite the operation, safe opcode, endpoint rewritten to the
file server. -/
theorem conv_rw_eq (env : Env) (st : St) (driver io_ept : Int) (buf : Ptr)
    (bytes pos : Int) (g0 : Nat) (op : Int)
    (hop : op = DEV_READ ∨ op = DEV_WRITE)
    (hg : 0 ≤ env.grant g0) :
    safe_io_conversion env st driver op io_ept buf bytes pos g0 =
      ⟨Outc.ok ⟨true, env.grant g0,
          (if op = DEV_READ then DEV_READ_S else DEV_WRITE_S), FS_PROC_NR, buf, [], pos⟩,
        g0+1,
        [Ev.mintMagic driver io_ept buf bytes
          (if op = DEV_READ then CPF_WRITE else CPF_READ) (env.grant g0)]⟩ := by
  rcases hop with h | h <;> subst h <;>
    simp [safe_io_conversion, convFinish, DEV_READ, DEV_WRITE, DEV_READ_S, DEV_WRITE_S,
      CPF_READ, CPF_WRITE, GRANT_INVALID, not_lt.mpr hg, show ¬(env.grant g0 < 0) from not_lt.mpr hg] <;>
    omega

theorem grantVec_no_sent2 {env : Env} {driver acc : Int} {vbase : Ptr}
    {toGo j g : Nat} {ro : Outc (List Int)} {g3 : Nat} {evs3 : List Ev}
    (h : grantVec env driver acc vbase toGo j g = (ro, g3, evs3)) :
    sentMsgs evs3 = [] := by
  have hx := grantVec_no_sent env driver acc vbase toGo j g
  rw [h] at hx
  exact hx

/-- The conversion never sends a message. -/
theorem conv_no_sent (env : Env) (st : St) (driver op io_ept : Int) (buf : Ptr)
    (bytes pos : Int) (g0 : Nat) :
    sentMsgs (safe_io_conversion env st driver op io_ept buf bytes pos g0).evs = [] := by
  simp only [safe_io_conversion, convFinish]
  repeat' split
  all_goals
    try (have h2 := grantVec_no_sent2 (by assumption)
         simp only [sentMsgs] at h2 ⊢
         simp [List.filterMap_cons, h2])
  all_goals simp [sentMsgs]

/-- Grant bookkeeping of a successful conversion: the minted grants are
exactly the outer grant followed by the sub-grants when the conversion
was to a safe variant, nothing otherwise; nothing is revoked; the
endpoint is rewritten to the file server or kept. -/
theorem conv_events (env : Env) (st : St) (driver op io_ept : Int) (buf : Ptr)
    (bytes pos : Int) (g0 : Nat) (cr : ConvR) (g1 : Nat) (evs : List Ev)
    (h : safe_io_conversion env st driver op io_ept buf bytes pos g0 = ⟨Outc.ok cr, g1, evs⟩) :
    mintIds evs = (if cr.safe then cr.gid :: cr.gids else []) ∧
    revokeIds evs = [] ∧
    (cr.io_ept = FS_PROC_NR ∨ cr.io_ept = io_ept) ∧
    ((op = DEV_GATHER ∨ op = DEV_SCATTER) → cr.buf = Ptr.serverIovec) := by
  simp only [safe_io_conversion, convFinish] at h
  repeat' split at h
  all_goals simp only [ConvOut.mk.injEq, Outc.ok.injEq] at h
  all_goals
    first
    | (obtain ⟨hcr, hg1, hevs⟩ := h
       exact Outc.noConfusion hcr)
    | (exfalso; simp only [GRANT_INVALID] at *; omega)
    | (obtain ⟨hcr, hg1, hevs⟩ := h
       obtain ⟨hm, hr⟩ := grantVec_events env driver _ buf bytes.toNat 0 (g0+1) _ _ _
         (by assumption)
       subst hcr
       subst hevs
       refine ⟨by simp [mintIds_mintDirect_cons, hm],
         by simp [revokeIds_mintDirect_cons, hr], by simp, fun _ => rfl⟩)
    | (obtain ⟨hcr, hg1, hevs⟩ := h
       subst hcr
       subst hevs
       refine ⟨by simp [mintIds], by simp [revokeIds], by simp, ?_⟩
       intro hg
       exfalso
       rcases hg with h2 | h2 <;>
         simp_all [DEV_READ, DEV_WRITE, DEV_GATHER, DEV_SCATTER, DEV_IOCTL])

/-! ### Concrete fixtures for witnesses -/

/-- A benign oracle: grants succeed with id 7, every sendrec gets an empty
reply, all endpoints are live. -/
def baseEnv : Env :=
  { grant := fun _ => 7
    ipc := fun _ _ _ => SRes.ok {}
    okend := fun _ => true
    vec := fun _ _ => {}
    ioctlIOR := fun _ => false
    ioctlIOW := fun _ => false
    ioctlBIG := fun _ => false
    ioctlSize := fun _ => 0
    ioctlSizeBig := fun _ => 0
    allocInode := none
    allocErr := -20
    rs := fun _ => SRes.err 0
    rsSend := fun _ => OK
    devctl := fun dm _ => (OK, dm)
    slotOf := fun _ => 0 }

/-- A server state with one generic driver 77 bound on major 3. -/
def baseSt : St :=
  { dmap := fun d => if d = 3 then ⟨77, OpclT.gen, IoT.gen⟩ else {}
    fproc := fun _ => {} }

/-! ### C10: dev_status from an unknown source is a no-op -/

/-- C10: if the source endpoint of the alert message is not the bound
driver of any major device number, dev_status returns immediately: no
DEV_STATUS request is sent, no process is revived, and the server state
is unchanged. -/
theorem c10_dev_status_frame (env : Env) (st : St) (m : Message)
    (h : ∀ d, d < NR_DEVICES →
      ¬((st.dmap d).dmap_driver ≠ NONE ∧ (st.dmap d).dmap_driver = m.m_source)) :
    dev_status env st m = ⟨Outc.ok (), st, []⟩ := by
  have hf : (List.range NR_DEVICES).find? (fun d =>
      decide ((st.dmap d).dmap_driver ≠ NONE ∧ (st.dmap d).dmap_driver = m.m_source))
      = none := by
    rw [List.find?_eq_none]
    intro d hd
    simp only [List.mem_range] at hd
    simpa using h d hd
  unfold dev_status
  rw [hf]

theorem c10_witness :
    dev_status baseEnv baseSt { m_source := 99 } = ⟨Outc.ok (), baseSt, []⟩ :=
  c10_dev_status_frame baseEnv baseSt { m_source := 99 } (by decide)

/-! ### C7: out-of-range majors resolve to the absent binding -/

/-- C7: for a device number whose major is at or beyond NR_DEVICES,
dev_open resolves to slot 0 and, that slot being the reserved absent
binding, returns ENXIO or ENODEV without sending any message and without
touching the state.  The content of slot 0 is modelled from the spec:
major 0 is reserved and its binding is absent. -/
theorem c7_dev_open_out_of_range (env : Env) (st : St) (dev proc flags : Int)
    (hmaj : (NR_DEVICES : Int) ≤ dev / 256 % 256)
    (habs : (st.dmap 0).dmap_driver = NONE ∨ (st.dmap 0).dmap_opcl = OpclT.nodev) :
    ((dev_open env st dev proc flags).res = Outc.ok ENXIO ∨
      (dev_open env st dev proc flags).res = Outc.ok ENODEV) ∧
    sentMsgs (dev_open env st dev proc flags).evs = [] ∧
    (dev_open env st dev proc flags).st = st := by
  by_cases hd : (st.dmap 0).dmap_driver = NONE
  · simp [dev_open, if_pos hmaj, hd, sentMsgs]
  · rcases habs with habs | habs
    · exact absurd habs hd
    · simp [dev_open, if_pos hmaj, hd, habs, dmapOpclCall, no_dev, sentMsgs,
        ENODEV, SUSPEND]

theorem c7_witness :
    ((dev_open baseEnv baseSt 8448 9 0).res = Outc.ok ENXIO ∨
      (dev_open baseEnv baseSt 8448 9 0).res = Outc.ok ENODEV) ∧
    sentMsgs (dev_open baseEnv baseSt 8448 9 0).evs = [] ∧
    (dev_open baseEnv baseSt 8448 9 0).st = baseSt :=
  c7_dev_open_out_of_range baseEnv baseSt 8448 9 0 (by decide) (Or.inl (by decide))

/-! ### C6: the read and write conversion -/

/-- C6: rewriting a read or write mints exactly one grant, for the driver,
over the range of length bytes starting at the caller buffer in the
address space of the I/O endpoint, with direction opposite the operation
(CPF_WRITE for a read, CPF_READ for a write); the opcode becomes the safe
variant and the stated I/O endpoint becomes the file server. -/
theorem c6_conversion_read_write (env : Env) (st : St) (driver io_ept : Int)
    (buf : Ptr) (bytes pos : Int) (g0 : Nat) (op : Int)
    (hop : op = DEV_READ ∨ op = DEV_WRITE)
    (hg : 0 ≤ env.grant g0) :
    safe_io_conversion env st driver op io_ept buf bytes pos g0 =
      ⟨Outc.ok ⟨true, env.grant g0,
          (if op = DEV_READ then DEV_READ_S else DEV_WRITE_S), FS_PROC_NR, buf, [], pos⟩,
        g0+1,
        [Ev.mintMagic driver io_ept buf bytes
          (if op = DEV_READ then CPF_WRITE else CPF_READ) (env.grant g0)]⟩ :=
  conv_rw_eq env st driver io_ept buf bytes pos g0 op hop hg

theorem c6_witness :
    safe_io_conversion baseEnv baseSt 77 DEV_READ 9 (Ptr.addr 4096) 512 0 0 =
      ⟨Outc.ok ⟨true, baseEnv.grant 0,
          (if DEV_READ = DEV_READ then DEV_READ_S else DEV_WRITE_S), FS_PROC_NR,
          Ptr.addr 4096, [], 0⟩,
        0+1,
        [Ev.mintMagic 77 9 (Ptr.addr 4096) 512
          (if DEV_READ = DEV_READ then CPF_WRITE else CPF_READ) (baseEnv.grant 0)]⟩ :=
  c6_conversion_read_write baseEnv baseSt 77 9 (Ptr.addr 4096) 512 0 0 DEV_READ
    (Or.inl rfl) (by decide)

/-! ### C9: vectored I/O through dev_io aborts before any dispatch -/

/-- C9: a dev_io call with DEV_GATHER or DEV_SCATTER against a bound, live
driver aborts the server before any message reaches the driver: the
conversion substitutes the server-local vector for the caller buffer and
dev_io treats the substitution as fatal (or the conversion itself
aborts); in every case no send event is produced. -/
theorem c9_dev_io_vectored_aborts (env : Env) (st : St)
    (dev proc_e a pos bytes flags op : Int)
    (hop : op = DEV_GATHER ∨ op = DEV_SCATTER)
    (hdrv : ¬(st.dmap (dev / 256 % 256).toNat).dmap_driver = NONE)
    (hok : env.okend (st.dmap (dev / 256 % 256).toNat).dmap_driver = true) :
    (∃ s, (dev_io env st op dev proc_e (Ptr.addr a) pos bytes flags).res = Outc.panic s) ∧
    sentMsgs (dev_io env st op dev proc_e (Ptr.addr a) pos bytes flags).evs = [] := by
  have hns := conv_no_sent env st ((st.dmap (dev / 256 % 256).toNat).dmap_driver)
    op proc_e (Ptr.addr a) bytes pos 0
  rcases hc : safe_io_conversion env st ((st.dmap (dev / 256 % 256).toNat).dmap_driver)
      op proc_e (Ptr.addr a) bytes pos 0 with ⟨cres, cg, cevs⟩
  rw [hc] at hns
  cases cres with
  | panic s =>
    constructor
    · exact ⟨s, by simp [dev_io, hdrv, hok, hc]⟩
    · simpa [dev_io, hdrv, hok, hc] using hns
  | ok cr =>
    have hbuf := (conv_events env st _ op proc_e (Ptr.addr a) bytes pos 0 cr cg cevs hc).2.2.2 hop
    constructor
    · exact ⟨"dev_io safe_io_conversion changed buffer",
        by simp [dev_io, hdrv, hok, hc, hbuf]⟩
    · simpa [dev_io, hdrv, hok, hc, hbuf] using hns

theorem c9_witness :
    (∃ s, (dev_io baseEnv baseSt DEV_GATHER 769 1 (Ptr.addr 4096) 0 2 0).res = Outc.panic s) ∧
    sentMsgs (dev_io baseEnv baseSt DEV_GATHER 769 1 (Ptr.addr 4096) 0 2 0).evs = [] :=
  c9_dev_io_vectored_aborts baseEnv baseSt 769 1 4096 0 2 0 DEV_GATHER
    (Or.inl rfl) (by decide) (by decide)

/-! ### C8: the controlling-tty policies -/

/-- State for the C8 counterexample: the caller has controlling tty
0x0401 (major 4, minor 1) but no driver is bound on major 4. -/
def c8St : St :=
  { dmap := fun _ => {}
    fproc := fun i => if i = 0 then { fp_tty := 1025 } else {} }

/-- C8 counterexample: with a non-zero controlling tty whose major has no
bound driver, ctty_io dispatches nothing and returns EIO, refuting the
unconditional clause that a non-zero controlling tty always leads to a
redispatch through the terminal handler. -/
theorem c8_counterexample :
    (c8St.fproc c8St.fpIdx).fp_tty ≠ 0 ∧
    (ctty_io baseEnv 77 {} c8St 0).r = Outc.ok EIO ∧
    sentMsgs (ctty_io baseEnv 77 {} c8St 0).evs = [] := by decide

/-- C8 as amended: ctty_opcl never contacts a driver and returns ENXIO
exactly when the caller has no controlling tty, OK otherwise; ctty_io
with no controlling tty sets the reply status to EIO without any driver
call; with a controlling tty whose driver is bound and live it
substitutes the minor of the controlling tty and redispatches through the
dmap entry of the controlling tty major; and with an absent or stale
driver it returns EIO without dispatching. -/
theorem c8_ctty_policy (env : Env) (st : St) (op dev proc_e flags task : Int)
    (m : Message) (ic : Nat)
    (hfp : st.fpNull = false) :
    (ctty_opcl env st op dev proc_e flags ic =
      ⟨Outc.ok (if (st.fproc st.fpIdx).fp_tty = 0 then ENXIO else OK), st, ic, []⟩) ∧
    ((st.fproc st.fpIdx).fp_tty = 0 →
      ctty_io env task m st ic = ⟨Outc.ok OK, { m with m2_i2 := EIO }, st, ic, []⟩) ∧
    ((st.fproc st.fpIdx).fp_tty ≠ 0 →
      ¬(st.dmap ((st.fproc st.fpIdx).fp_tty / 256 % 256).toNat).dmap_driver = NONE →
      env.okend (st.dmap ((st.fproc st.fpIdx).fp_tty / 256 % 256).toNat).dmap_driver = true →
      ctty_io env task m st ic =
        (let c := dmapIoCall env 39
          (st.dmap ((st.fproc st.fpIdx).fp_tty / 256 % 256).toNat).dmap_io
          (st.dmap ((st.fproc st.fpIdx).fp_tty / 256 % 256).toNat).dmap_driver
          { m with m2_i1 := (st.fproc st.fpIdx).fp_tty % 256 } st ic
         match c.r with
         | Outc.panic s => ⟨Outc.panic s, c.msg, c.st, c.ic, c.evs⟩
         | Outc.ok _ => ⟨Outc.ok OK, c.msg, c.st, c.ic, c.evs⟩)) ∧
    ((st.fproc st.fpIdx).fp_tty ≠ 0 →
      ((st.dmap ((st.fproc st.fpIdx).fp_tty / 256 % 256).toNat).dmap_driver = NONE ∨
        env.okend (st.dmap ((st.fproc st.fpIdx).fp_tty / 256 % 256).toNat).dmap_driver = false) →
      ctty_io env task m st ic =
        ⟨Outc.ok EIO, { m with m2_i1 := (st.fproc st.fpIdx).fp_tty % 256 }, st, ic, []⟩) := by
  have h40 : ioFuel = Nat.succ 39 := rfl
  refine ⟨?_, ?_, ?_, ?_⟩
  · by_cases h0 : (st.fproc st.fpIdx).fp_tty = 0 <;> simp [ctty_opcl, hfp, h0]
  · intro h0
    unfold ctty_io
    rw [h40]
    simp [dmapIoCall, hfp, h0]
  · intro h0 hdrv hok
    unfold ctty_io
    rw [h40]
    simp [dmapIoCall, hfp, h0, hdrv, hok]
  · intro h0 hd
    unfold ctty_io
    rw [h40]
    rcases hd with hd | hd <;> simp [dmapIoCall, hfp, h0, hd]

/-- State for the C8 witness: controlling tty 0x0401 with a live generic
driver 77 on major 4. -/
def c8St2 : St :=
  { dmap := fun d => if d = 4 then ⟨77, OpclT.tty, IoT.gen⟩ else {}
    fproc := fun i => if i = 0 then { fp_tty := 1025 } else {} }

theorem c8_witness :
    ctty_io baseEnv 77 { m_type := DEV_READ_S } c8St2 0 =
      (let c := dmapIoCall baseEnv 39
        (c8St2.dmap ((c8St2.fproc c8St2.fpIdx).fp_tty / 256 % 256).toNat).dmap_io
        (c8St2.dmap ((c8St2.fproc c8St2.fpIdx).fp_tty / 256 % 256).toNat).dmap_driver
        { { m_type := DEV_READ_S : Message } with
            m2_i1 := (c8St2.fproc c8St2.fpIdx).fp_tty % 256 } c8St2 0
       match c.r with
       | Outc.panic s => ⟨Outc.panic s, c.msg, c.st, c.ic, c.evs⟩
       | Outc.ok _ => ⟨Outc.ok OK, c.msg, c.st, c.ic, c.evs⟩) :=
  (c8_ctty_policy baseEnv c8St2 DEV_OPEN 0 9 0 77 { m_type := DEV_READ_S } 0
    rfl).2.2.1 (by decide) (by decide) (by decide)

/-! ### C4: the controlling-tty acquisition sentinel -/

/-- State for the C4 failing input: a live tty driver 77 on major 4 and a
current process that is not a session leader. -/
def c4St : St :=
  { dmap := fun d => if d = 4 then ⟨77, OpclT.tty, IoT.gen⟩ else {}
    fproc := fun _ => { fp_pid := 10 } }

/-- Oracle for the C4 failing input: the driver dies during the open, so
sendrec fails with EDEADSRCDST and the request message is left in place. -/
def c4Env : Env :=
  { baseEnv with ipc := fun _ _ _ => SRes.err EDEADSRCDST }

/-- C4 failing input, evaluated: tty_opcl(DEV_OPEN, dev 0x0401, caller
endpoint FS_PROC_NR = 1, flags 0) with a caller that is not a session
leader and a driver that dies during the sendrec.  The one message that
was sent carries the forced O_NOCTTY flag and is never answered; yet
because the failed sendrec leaves the request in the message buffer and
REP_STATUS aliases the IO_ENDPT slot, gen_opcl reads back the caller
endpoint 1, tty_opcl takes it for the acquisition sentinel, records the
device as the controlling tty of a non-leader and returns OK.  This
contradicts the claim that fp_tty becomes non-zero only through a
session-leader open whose driver replied with the sentinel 1. -/
theorem c4_sentinel_collision_eval :
    (c4St.fproc c4St.fpIdx).fp_sesldr = false ∧
    (tty_opcl c4Env c4St DEV_OPEN 1025 FS_PROC_NR 0 0).r = Outc.ok OK ∧
    ((tty_opcl c4Env c4St DEV_OPEN 1025 FS_PROC_NR 0 0).st.fproc c4St.fpIdx).fp_tty = 1025 ∧
    sentMsgs (tty_opcl c4Env c4St DEV_OPEN 1025 FS_PROC_NR 0 0).evs =
      [(77, genOpclMsg DEV_OPEN 1025 FS_PROC_NR (Int.lor 0 O_NOCTTY))] := by decide

/-! ### C5: clone devices -/

/-- Oring a sub-byte value into a number with a cleared low byte is
addition. -/
theorem byte_lor_eq (n t : Nat) (hs : t < 256) :
    ((n / 256 * 256) ||| t) = n / 256 * 256 + t := by
  have h2 : (2:Nat)^8 = 256 := by norm_num
  have hlt : t < 2^8 := by omega
  have h1 := Nat.mul_add_lt_is_or hlt (n / 256)
  rw [h2, Nat.mul_comm] at h1
  exact h1.symm

/-- The new device number clone_opcl computes, as plain arithmetic. -/
theorem clone_dev2_eq (dev s : Int) (h0 : 0 ≤ dev) (hs0 : 0 ≤ s) (hs : s < 256) :
    (((dev.toNat / 256 * 256) ||| s.toNat : Nat) : Int) = dev / 256 * 256 + s := by
  rw [byte_lor_eq dev.toNat s.toNat (by omega)]
  push_cast
  omega

/-- Generic dispatch goes straight to gen_io, whatever the fuel. -/
theorem dmapIoCall_gen (env : Env) (fuel : Nat) (task : Int) (m : Message)
    (st : St) (ic : Nat) :
    dmapIoCall env fuel IoT.gen task m st ic = gen_io env task m st ic := by
  cases fuel <;> rfl

/-- A successful sendrec reduces gen_io to the reply, a matching reply
endpoint deciding between OK and EIO. -/
theorem gen_io_ok (env : Env) (task : Int) (m : Message) (st : St) (ic : Nat)
    (rep : Message) (h : env.ipc ic task m = SRes.ok rep) :
    gen_io env task m st ic =
      ⟨Outc.ok (if rep.m2_i1 ≠ m.m2_i2 then EIO else OK), rep, st, ic+1,
        [Ev.sent task m]⟩ := by
  unfold gen_io
  rw [h]
  by_cases hr : rep.m2_i1 ≠ m.m2_i2 <;> simp [hr]

/-- C5: a clone_opcl open on a live driver whose reply status is a
nonnegative minor different from the requested one allocates a fresh
character-special inode bound to the same major and the returned minor,
swaps it into the filp of the caller dropping the old inode reference,
and reports OK; when allocation fails, a compensating DEV_CLOSE for the
new device goes to the same driver and err_code is returned. -/
theorem c5_clone_open_new_minor (env : Env) (st : St) (dev proc_e flags : Int)
    (rep rep2 : Message) (fuel : Nat) (out : OpclOut)
    (hout : clone_opcl env (fuel+2) st DEV_OPEN dev proc_e flags 0 = out)
    (hdev0 : 0 ≤ dev)
    (hfp : st.fpNull = false)
    (hdrv : ¬(st.dmap (dev / 256 % 256).toNat).dmap_driver = NONE)
    (hok : env.okend (st.dmap (dev / 256 % 256).toNat).dmap_driver = true)
    (hio : (st.dmap (dev / 256 % 256).toNat).dmap_io = IoT.gen)
    (hipc : env.ipc 0 ((st.dmap (dev / 256 % 256).toNat).dmap_driver)
        { m_type := DEV_OPEN, m2_i1 := dev % 256, m2_i2 := proc_e, m2_i3 := flags }
        = SRes.ok rep)
    (hrend : rep.m2_i1 = proc_e)
    (hs0 : 0 ≤ rep.m2_i2) (hs255 : rep.m2_i2 < 256) (hne : rep.m2_i2 ≠ dev % 256)
    (hipc2 : env.ipc 1 ((st.dmap (dev / 256 % 256).toNat).dmap_driver)
        { m_type := DEV_CLOSE, m2_i1 := rep.m2_i2, m2_i2 := proc_e, m2_i3 := 0 }
        = SRes.ok rep2) :
    (∀ ip, env.allocInode = some ip →
      out.r = Outc.ok OK ∧
      out.st.curFilpIno = { ip with i_zone0 := dev / 256 * 256 + rep.m2_i2 } ∧
      (dev / 256 * 256 + rep.m2_i2) / 256 % 256 = dev / 256 % 256 ∧
      (dev / 256 * 256 + rep.m2_i2) % 256 = rep.m2_i2 ∧
      out.evs =
        [Ev.sent ((st.dmap (dev / 256 % 256).toNat).dmap_driver)
            { m_type := DEV_OPEN, m2_i1 := dev % 256, m2_i2 := proc_e, m2_i3 := flags },
          Ev.allocEv true, Ev.putInode st.curFilpIno]) ∧
    (env.allocInode = none →
      out.r = Outc.ok env.allocErr ∧
      out.evs =
        [Ev.sent ((st.dmap (dev / 256 % 256).toNat).dmap_driver)
            { m_type := DEV_OPEN, m2_i1 := dev % 256, m2_i2 := proc_e, m2_i3 := flags },
          Ev.allocEv false,
          Ev.sent ((st.dmap (dev / 256 % 256).toNat).dmap_driver)
            { m_type := DEV_CLOSE, m2_i1 := rep.m2_i2, m2_i2 := proc_e, m2_i3 := 0 }]) := by
  have hb := clone_dev2_eq dev rep.m2_i2 hdev0 hs0 hs255
  have hma : (dev / 256 * 256 + rep.m2_i2) / 256 % 256 = dev / 256 % 256 := by omega
  have hmi : (dev / 256 * 256 + rep.m2_i2) % 256 = rep.m2_i2 := by omega
  have hOK : (if rep.m2_i1 ≠ proc_e then EIO else OK) = OK := by simp [hrend]
  rw [show fuel + 2 = Nat.succ (fuel + 1) from rfl] at hout
  simp only [clone_opcl] at hout
  rw [if_neg hdrv] at hout
  rw [if_neg (by simp [hok])] at hout
  rw [hio, dmapIoCall_gen, gen_io_ok env _ _ st 0 rep hipc, hOK] at hout
  dsimp only at hout
  simp only [Nat.zero_add] at hout
  rw [if_neg (show ¬((OK:Int) ≠ OK) by simp)] at hout
  rw [if_pos (show True ∧ 0 ≤ rep.m2_i2 from ⟨trivial, hs0⟩)] at hout
  rw [if_pos hne] at hout
  rw [hb] at hout
  rw [hma, hmi] at hout
  rcases henv : env.allocInode with _ | ip
  · refine ⟨fun ip hip2 => Option.noConfusion hip2, fun _ => ?_⟩
    rw [henv] at hout
    try dsimp only at hout
    rw [if_neg hdrv] at hout
    rw [if_neg (by simp [hok])] at hout
    rw [hio, dmapIoCall_gen, gen_io_ok env _ _ st 1 rep2 hipc2] at hout
    try dsimp only at hout
    by_cases h2e : rep2.m2_i1 = proc_e
    · rw [show (if rep2.m2_i1 ≠ proc_e then EIO else OK) = OK by simp [h2e]] at hout
      rw [if_neg (show ¬((OK:Int) ≠ OK) by simp)] at hout
      rw [if_neg (show ¬(DEV_CLOSE = DEV_OPEN ∧ 0 ≤ rep2.m2_i2) from
        fun hcc => by simpa [DEV_CLOSE, DEV_OPEN] using hcc.1)] at hout
      subst hout
      exact ⟨rfl, rfl⟩
    · rw [show (if rep2.m2_i1 ≠ proc_e then EIO else OK) = EIO by simp [h2e]] at hout
      rw [if_pos (show ( EIO : Int) ≠ OK by simp [ EIO, OK])] at hout
      subst hout
      exact ⟨rfl, rfl⟩
  · refine ⟨fun ip2 hip2 => ?_, fun hn => Option.noConfusion hn⟩
    obtain rfl : ip = ip2 := by injection hip2
    rw [henv] at hout
    try dsimp only at hout
    rw [if_neg (by simp [hfp])] at hout
    subst hout
    exact ⟨rfl, rfl, hma, hmi, rfl⟩

/-- Oracle for the C5 witness: the clone driver answers the open with
minor 7 and inode allocation succeeds. -/
def c5Env : Env :=
  { baseEnv with
    ipc := fun n _ _ =>
      if n = 0 then SRes.ok { m2_i1 := 9, m2_i2 := 7 } else SRes.ok { m2_i1 := 9 }
    allocInode := some { ino := 5 } }

/-- State for the C5 witness: clone driver 88 on major 5. -/
def c5St : St :=
  { dmap := fun d => if d = 5 then ⟨88, OpclT.clone, IoT.gen⟩ else {}
    fproc := fun _ => {}
    curFilpIno := { ino := 3, i_zone0 := 1280 } }

theorem c5_witness :
    (clone_opcl c5Env 4 c5St DEV_OPEN 1280 9 2 0).r = Outc.ok OK ∧
    (clone_opcl c5Env 4 c5St DEV_OPEN 1280 9 2 0).st.curFilpIno =
      { ({ ino := 5 } : Inode) with i_zone0 := (1280:Int) / 256 * 256 + 7 } ∧
    ((1280:Int) / 256 * 256 + 7) / 256 % 256 = (1280:Int) / 256 % 256 ∧
    ((1280:Int) / 256 * 256 + 7) % 256 = 7 ∧
    (clone_opcl c5Env 4 c5St DEV_OPEN 1280 9 2 0).evs =
      [Ev.sent ((c5St.dmap ((1280:Int) / 256 % 256).toNat).dmap_driver)
          { m_type := DEV_OPEN, m2_i1 := (1280:Int) % 256, m2_i2 := 9, m2_i3 := 2 },
        Ev.allocEv true, Ev.putInode c5St.curFilpIno] :=
  (c5_clone_open_new_minor c5Env c5St 1280 9 2 { m2_i1 := 9, m2_i2 := 7 } { m2_i1 := 9 }
    2 (clone_opcl c5Env 4 c5St DEV_OPEN 1280 9 2 0) rfl
    (by decide) rfl (by decide) rfl rfl (by decide) rfl (by decide) (by decide)
    (by decide) (by decide)).1 { ino := 5 } rfl

/-! ### C3: the O_NONBLOCK cancel path -/

/-- Oracle family for C3: grants get id g, the first sendrec is answered
with rep1, every later one with rep2. -/
def c3Env (g : Int) (rep1 rep2 : Message) : Env :=
  { baseEnv with
    grant := fun _ => g
    ipc := fun n _ _ => if n = 0 then SRes.ok rep1 else SRes.ok rep2 }

/-- C3 counterexample: when the driver also answers the CANCEL with
SUSPEND, dev_io propagates SUSPEND to its caller even under O_NONBLOCK,
refuting the clause that the non-blocking path never returns SUSPEND.
The grant is still revoked and both messages were sent. -/
theorem c3_counterexample :
    (dev_io (c3Env 7 { m2_i1 := 1, m2_i2 := SUSPEND } { m2_i1 := 1, m2_i2 := SUSPEND })
        baseSt DEV_READ 769 9 (Ptr.addr 4096) 0 512 O_NONBLOCK).res = Outc.ok SUSPEND ∧
    revokeIds (dev_io (c3Env 7 { m2_i1 := 1, m2_i2 := SUSPEND } { m2_i1 := 1, m2_i2 := SUSPEND })
        baseSt DEV_READ 769 9 (Ptr.addr 4096) 0 512 O_NONBLOCK).evs = [7] ∧
    (sentMsgs (dev_io (c3Env 7 { m2_i1 := 1, m2_i2 := SUSPEND } { m2_i1 := 1, m2_i2 := SUSPEND })
        baseSt DEV_READ 769 9 (Ptr.addr 4096) 0 512 O_NONBLOCK).evs).length = 2 := by
  decide

/-- C3 as amended: on a read or write under O_NONBLOCK whose driver
replies SUSPEND, dev_io sends a CANCEL to the same driver carrying the
same grant and the same rewritten I/O endpoint, remaps a post-cancel
EINTR to EAGAIN, revokes the one minted grant, and returns the post-cancel
status, which differs from SUSPEND whenever the cancel reply itself is
not SUSPEND. -/
theorem c3_nonblock_cancel (st : St) (rep1 rep2 : Message)
    (g dev proc_e a pos bytes flags op : Int) (out : RunOut Int)
    (hout : dev_io (c3Env g rep1 rep2) st op dev proc_e (Ptr.addr a) pos bytes flags = out)
    (hop : op = DEV_READ ∨ op = DEV_WRITE)
    (hfp : st.fpNull = false)
    (hdrv : ¬(st.dmap (dev / 256 % 256).toNat).dmap_driver = NONE)
    (hio : (st.dmap (dev / 256 % 256).toNat).dmap_io = IoT.gen)
    (hg : 0 ≤ g)
    (hnb : Int.land flags O_NONBLOCK ≠ 0)
    (hs : rep1.m2_i2 = SUSPEND) :
    out.res = Outc.ok (if rep2.m2_i2 = EINTR then EAGAIN else rep2.m2_i2) ∧
    mintIds out.evs = [g] ∧
    revokeIds out.evs = [g] ∧
    (∃ m1 cnt, sentMsgs out.evs =
      [(((st.dmap (dev / 256 % 256).toNat).dmap_driver), m1),
       (((st.dmap (dev / 256 % 256).toNat).dmap_driver),
        { rep1 with
          m_type := CANCEL
          m2_i1 := dev % 256
          m2_i2 := FS_PROC_NR
          m2_i3 := cnt
          m2_p1 := Ptr.grant g })]) ∧
    (rep2.m2_i2 ≠ SUSPEND → out.res ≠ Outc.ok SUSPEND) := by
  have hconv := conv_rw_eq (c3Env g rep1 rep2) st
    ((st.dmap (dev / 256 % 256).toNat).dmap_driver) proc_e (Ptr.addr a) bytes pos 0 op hop
    (by simpa [c3Env] using hg)
  simp only [dev_io] at hout
  rw [if_neg hdrv] at hout
  rw [if_neg (show ¬¬((c3Env g rep1 rep2).okend
    ((st.dmap (dev / 256 % 256).toNat).dmap_driver) = true) by simp [c3Env, baseEnv])] at hout
  rw [hconv] at hout
  try dsimp only at hout
  rw [if_neg (show ¬(Ptr.addr a ≠ Ptr.addr a) by simp)] at hout
  rw [hio, dmapIoCall_gen] at hout
  rw [gen_io_ok (c3Env g rep1 rep2) _ _ st 0 rep1 (by simp [c3Env])] at hout
  try dsimp only at hout
  simp only [Nat.zero_add] at hout
  rw [if_neg hdrv] at hout
  rw [if_pos hs] at hout
  rw [if_neg (show ¬(0 < ([] : List Int).length) by simp)] at hout
  rw [if_neg (show ¬(st.fpNull = true) by simp [hfp])] at hout
  rw [if_pos hnb] at hout
  rw [hio] at hout
  rw [dmapIoCall_gen] at hout
  rw [gen_io_ok (c3Env g rep1 rep2) _ _ st 1 rep2 (by simp [c3Env])] at hout
  try dsimp only at hout
  subst hout
  refine ⟨rfl, ?_, ?_, ?_, ?_⟩
  · simp [mintIds, safe_io_cleanup, c3Env, baseEnv]
  · simp [revokeIds, safe_io_cleanup, c3Env, baseEnv]
  · refine ⟨{ m_type := (if op = DEV_READ then DEV_READ_S else DEV_WRITE_S), m2_i1 := dev % 256, m2_i2 := FS_PROC_NR, m2_i3 := bytes, m2_l1 := pos, m2_p1 := Ptr.grant g }, (if st.callNr = READ then R_BIT else if st.callNr = WRITE then W_BIT else 0), ?_⟩
    simp only [sentMsgs_append, sentMsgs_cleanup, sentMsgs, List.filterMap_cons,
      List.filterMap_nil, List.append_nil, if_true]
    rfl
  · intro h2 hcon
    have hx : (if rep2.m2_i2 = EINTR then EAGAIN else rep2.m2_i2) = SUSPEND :=
      Outc.ok.inj hcon
    by_cases he : rep2.m2_i2 = EINTR
    · rw [if_pos he] at hx
      exact absurd hx (by decide)
    · rw [if_neg he] at hx
      exact h2 hx

/-- Concrete instantiation of the amended C3 theorem: a 512-byte read
under O_NONBLOCK on device 0x0301 whose driver first replies SUSPEND and
then answers the CANCEL with EINTR makes dev_io return EAGAIN, with the
single grant 7 both minted and revoked. -/
theorem c3_witness :
    (dev_io (c3Env 7 { m2_i1 := 1, m2_i2 := SUSPEND } { m2_i1 := 1, m2_i2 := EINTR })
        baseSt DEV_READ 769 9 (Ptr.addr 4096) 0 512 O_NONBLOCK).res = Outc.ok EAGAIN ∧
    mintIds (dev_io (c3Env 7 { m2_i1 := 1, m2_i2 := SUSPEND } { m2_i1 := 1, m2_i2 := EINTR })
        baseSt DEV_READ 769 9 (Ptr.addr 4096) 0 512 O_NONBLOCK).evs = [7] ∧
    revokeIds (dev_io (c3Env 7 { m2_i1 := 1, m2_i2 := SUSPEND } { m2_i1 := 1, m2_i2 := EINTR })
        baseSt DEV_READ 769 9 (Ptr.addr 4096) 0 512 O_NONBLOCK).evs = [7] := by
  have h := c3_nonblock_cancel baseSt { m2_i1 := 1, m2_i2 := SUSPEND }
    { m2_i1 := 1, m2_i2 := EINTR } 7 769 9 4096 0 512 O_NONBLOCK DEV_READ
    (dev_io (c3Env 7 { m2_i1 := 1, m2_i2 := SUSPEND } { m2_i1 := 1, m2_i2 := EINTR })
        baseSt DEV_READ 769 9 (Ptr.addr 4096) 0 512 O_NONBLOCK) rfl
    (Or.inl rfl) rfl (by decide) (by decide) (by decide) (by decide) rfl
  exact ⟨h.1.trans (by decide), h.2.1, h.2.2.1⟩

/-! ### C1: grant balance of dev_io -/

/-- C1: on every dev_io run that returns normally the revoked grant ids
are exactly the minted grant ids — success, driver-vanished EIO and the
non-blocking cancel path all clean up — except the suspension branch:
there the driver replied SUSPEND, the caller did not pass O_NONBLOCK,
nothing is revoked, and the minted grants are either none or exactly the
one grant parked in the fp_grant slot of the suspended process. -/
theorem c1_dev_io_grant_balance (env : Env) (st : St) (op dev proc_e : Int)
    (buf : Ptr) (pos bytes flags : Int) (v : Int) (out : RunOut Int)
    (hout : dev_io env st op dev proc_e buf pos bytes flags = out)
    (hok : out.res = Outc.ok v) :
    revokeIds out.evs = mintIds out.evs ∨
    (v = SUSPEND ∧ Int.land flags O_NONBLOCK = 0 ∧ revokeIds out.evs = [] ∧
      (mintIds out.evs = [] ∨
       mintIds out.evs = [((out.st).fproc ((out.st).fpIdx)).fp_grant])) := by
  simp only [dev_io] at hout
  rcases hC : safe_io_conversion env st
      (st.dmap (dev / 256 % 256).toNat).dmap_driver op proc_e buf bytes pos 0 with
    ⟨cres, cg, cevs⟩
  rw [hC] at hout
  try dsimp only at hout
  by_cases hd1 : (st.dmap (dev / 256 % 256).toNat).dmap_driver = NONE
  · rw [if_pos hd1] at hout; subst hout; left; rfl
  rw [if_neg hd1] at hout
  by_cases hd2 : env.okend (st.dmap (dev / 256 % 256).toNat).dmap_driver = true
  case neg => rw [if_pos hd2] at hout; subst hout; left; rfl
  rw [if_neg (not_not_intro hd2)] at hout
  cases cres with
  | panic s =>
    try dsimp only at hout
    subst hout; simp at hok
  | ok cr =>
    try dsimp only at hout
    obtain ⟨hM, hR, -, -⟩ := conv_events env st _ op proc_e buf bytes pos 0 cr cg cevs hC
    by_cases hb : buf = cr.buf
    case neg => rw [if_pos hb] at hout; subst hout; simp at hok
    rw [if_neg (not_not_intro hb)] at hout
    set C1 : CallOut := dmapIoCall env ioFuel (st.dmap (dev / 256 % 256).toNat).dmap_io (st.dmap (dev / 256 % 256).toNat).dmap_driver { m_type := cr.op, m2_i1 := dev % 256, m2_i2 := cr.io_ept, m2_i3 := bytes, m2_l1 := cr.pos, m2_l2 := 0, m2_p1 := if cr.safe then Ptr.grant cr.gid else buf } st 0 with hc1
    have hm1 : mintIds C1.evs = [] := by rw [hc1]; apply dmapIoCall_mint
    have hr1 : revokeIds C1.evs = [] := by rw [hc1]; apply dmapIoCall_revoke
    split at hout
    · subst hout; simp at hok
    rename_i x hx
    by_cases hvan : (C1.st.dmap (dev / 256 % 256).toNat).dmap_driver = NONE
    · -- driver vanished during the call: EIO with cleanup
      rw [if_pos hvan] at hout
      subst hout
      left
      by_cases hs : cr.safe = true <;>
        simp [revokeIds_append, mintIds_append, hM, hR, hm1, hr1,
          mintIds_cleanup, revokeIds_cleanup, hs]
    rw [if_neg hvan] at hout
    by_cases hsus : C1.msg.m2_i2 = SUSPEND
    case neg =>
      -- normal completion: cleanup and return the status
      rw [if_neg hsus] at hout
      subst hout
      left
      by_cases hs : cr.safe = true <;>
        simp [revokeIds_append, mintIds_append, hM, hR, hm1, hr1,
          mintIds_cleanup, revokeIds_cleanup, hs]
    rw [if_pos hsus] at hout
    by_cases hlen : 0 < cr.gids.length
    · rw [if_pos hlen] at hout; subst hout; simp at hok
    rw [if_neg hlen] at hout
    by_cases hnull : C1.st.fpNull = true
    · rw [if_pos hnull] at hout; subst hout; simp at hok
    rw [if_neg hnull] at hout
    by_cases hnb : Int.land flags O_NONBLOCK ≠ 0
    · -- O_NONBLOCK: cancel
      rw [if_pos hnb] at hout
      split at hout
      · subst hout; simp at hok
      subst hout
      left
      by_cases hs : cr.safe = true <;>
        simp [revokeIds_append, mintIds_append, hM, hR, hm1, hr1, dmapIoCall_mint,
          dmapIoCall_revoke, mintIds_cleanup, revokeIds_cleanup, hs]
    -- suspend the caller
    rw [if_neg hnb] at hout
    by_cases hass : (C1.st.fproc C1.st.fpIdx).fp_grant > GRANT_INVALID
    · rw [if_pos hass] at hout; subst hout; simp at hok
    rw [if_neg hass] at hout
    subst hout
    have hv : SUSPEND = v := by simpa using hok
    have hg0 : cr.gids = [] := by
      rcases hgs : cr.gids with _ | ⟨a, l⟩
      · rfl
      · rw [hgs] at hlen; exact absurd (by simp) hlen
    refine Or.inr ⟨hv.symm, not_ne_iff.mp hnb, ?_, ?_⟩
    · dsimp only
      rw [revokeIds_append, revokeIds_append, hR, hr1]
      rfl
    · by_cases hs : cr.safe = true
      · right
        dsimp only
        rw [mintIds_append, mintIds_append, hM, hm1, if_pos hs, hg0]
        simp [mintIds, setFp]
      · left
        dsimp only
        rw [mintIds_append, mintIds_append, hM, hm1, if_neg hs]
        simp [mintIds]

/-- Concrete instantiation of the C1 theorem on the suspension branch: a
blocking read whose driver replies SUSPEND lands in the exception clause
of the balance property. -/
theorem c1_witness :
    revokeIds (dev_io (c3Env 7 { m2_i1 := 1, m2_i2 := SUSPEND } { m2_i1 := 1, m2_i2 := SUSPEND })
        baseSt DEV_READ 769 9 (Ptr.addr 4096) 0 512 0).evs =
      mintIds (dev_io (c3Env 7 { m2_i1 := 1, m2_i2 := SUSPEND } { m2_i1 := 1, m2_i2 := SUSPEND })
        baseSt DEV_READ 769 9 (Ptr.addr 4096) 0 512 0).evs ∨
    (SUSPEND = SUSPEND ∧ Int.land 0 O_NONBLOCK = 0 ∧
      revokeIds (dev_io (c3Env 7 { m2_i1 := 1, m2_i2 := SUSPEND } { m2_i1 := 1, m2_i2 := SUSPEND })
        baseSt DEV_READ 769 9 (Ptr.addr 4096) 0 512 0).evs = [] ∧
      (mintIds (dev_io (c3Env 7 { m2_i1 := 1, m2_i2 := SUSPEND } { m2_i1 := 1, m2_i2 := SUSPEND })
          baseSt DEV_READ 769 9 (Ptr.addr 4096) 0 512 0).evs = [] ∨
       mintIds (dev_io (c3Env 7 { m2_i1 := 1, m2_i2 := SUSPEND } { m2_i1 := 1, m2_i2 := SUSPEND })
          baseSt DEV_READ 769 9 (Ptr.addr 4096) 0 512 0).evs =
        [(((dev_io (c3Env 7 { m2_i1 := 1, m2_i2 := SUSPEND } { m2_i1 := 1, m2_i2 := SUSPEND })
            baseSt DEV_READ 769 9 (Ptr.addr 4096) 0 512 0).st).fproc
          ((dev_io (c3Env 7 { m2_i1 := 1, m2_i2 := SUSPEND } { m2_i1 := 1, m2_i2 := SUSPEND })
            baseSt DEV_READ 769 9 (Ptr.addr 4096) 0 512 0).st).fpIdx).fp_grant])) :=
  c1_dev_io_grant_balance
    (c3Env 7 { m2_i1 := 1, m2_i2 := SUSPEND } { m2_i1 := 1, m2_i2 := SUSPEND })
    baseSt DEV_READ 769 9 (Ptr.addr 4096) 0 512 0 SUSPEND _ rfl (by decide)

/-! ### C2: dev_bio never suspends -/

/-- The RS wait loop of dev_bio neither mints nor revokes grants. -/
theorem rsWait_no_grants (env : Env) (dmaj : Nat) :
    ∀ (fuel : Nat) (st : St) (rc : Nat),
      mintIds (rsWait env dmaj fuel st rc).2.2.2 = [] ∧
      revokeIds (rsWait env dmaj fuel st rc).2.2.2 = [] := by
  intro fuel
  induction fuel with
  | zero => intro st rc; exact ⟨rfl, rfl⟩
  | succ n ih =>
    intro st rc
    rw [show n + 1 = Nat.succ n from rfl]
    simp only [rsWait]
    split
    · exact ⟨rfl, rfl⟩
    · rename_i mrs hmrs
      split
      · split
        · exact ⟨rfl, rfl⟩
        · split
          · exact ⟨rfl, rfl⟩
          · have h := ih { st with dmap := (env.devctl st.dmap mrs).2 } (rc+1)
            try dsimp only
            refine ⟨?_, ?_⟩
            · rw [mintIds_recvRS_cons, mintIds_sentRS_cons]; exact h.1
            · rw [revokeIds_recvRS_cons, revokeIds_sentRS_cons]; exact h.2
      · exact ⟨rfl, rfl⟩

/-- Every normal return of the dev_bio retry loop carries a status other
than SUSPEND and a trace whose revoked grant ids equal the minted ones. -/
theorem bioLoop_ok (env : Env) (op dev proc_e : Int) (buf : Ptr) (bytes : Int) :
    ∀ (fuel : Nat) (st : St) (pos : Int) (gc ic rc : Nat) (v : Int) (out : RunOut Int),
      bioLoop env fuel st op dev proc_e buf pos bytes gc ic rc = out →
      out.res = Outc.ok v →
      v ≠ SUSPEND ∧ revokeIds out.evs = mintIds out.evs := by
  intro fuel
  induction fuel with
  | zero =>
    intro st pos gc ic rc v out hout hok
    simp only [bioLoop] at hout
    subst hout
    simp at hok
  | succ n ih =>
    intro st pos gc ic rc v out hout hok
    rw [show n + 1 = Nat.succ n from rfl] at hout
    simp only [bioLoop] at hout
    by_cases hd1 : (st.dmap (dev / 256 % 256).toNat).dmap_driver = NONE
    · rw [if_pos hd1] at hout
      subst hout
      have hv : ENXIO = v := by simpa using hok
      subst hv
      exact ⟨by decide, rfl⟩
    rw [if_neg hd1] at hout
    rcases hC : safe_io_conversion env st (st.dmap (dev / 256 % 256).toNat).dmap_driver op proc_e buf bytes pos gc with ⟨cres, cg2, cevs⟩
    rw [hC] at hout
    try dsimp only at hout
    cases cres with
    | panic s =>
      try dsimp only at hout
      subst hout; simp at hok
    | ok cr =>
      try dsimp only at hout
      obtain ⟨hM, hR, -, -⟩ := conv_events env st _ op proc_e buf bytes pos gc cr cg2 cevs hC
      set C1 : CallOut := dmapIoCall env ioFuel (st.dmap (dev / 256 % 256).toNat).dmap_io (st.dmap (dev / 256 % 256).toNat).dmap_driver { m_type := cr.op, m2_i1 := dev % 256, m2_i2 := cr.io_ept, m2_i3 := bytes, m2_l1 := cr.pos, m2_l2 := 0, m2_p1 := if cr.safe then Ptr.grant cr.gid else buf } st ic with hc1
      have hm1 : mintIds C1.evs = [] := by rw [hc1]; apply dmapIoCall_mint
      have hr1 : revokeIds C1.evs = [] := by rw [hc1]; apply dmapIoCall_revoke
      split at hout
      · subst hout; simp at hok
      rename_i x hx
      by_cases hvan : (C1.st.dmap (dev / 256 % 256).toNat).dmap_driver = NONE
      · -- the driver vanished: wait for a rebind and retry
        rw [if_pos hvan] at hout
        split at hout
        · subst hout; simp at hok
        rename_i u st2 rc2 evs2 heqW
        rcases hB : bioLoop env n st2 op dev proc_e buf cr.pos bytes cg2 C1.ic rc2 with ⟨bres, bst, bevs⟩
        rw [hB] at hout
        try dsimp only at hout
        subst hout
        obtain ⟨hv, hbal⟩ := ih st2 cr.pos cg2 C1.ic rc2 v ⟨bres, bst, bevs⟩ hB (by simpa using hok)
        refine ⟨hv, ?_⟩
        have hw := rsWait_no_grants env (dev / 256 % 256).toNat 8 C1.st rc
        rw [heqW] at hw
        obtain ⟨hw1, hw2⟩ := hw
        try dsimp only at hw1 hw2 hbal ⊢
        by_cases hs : cr.safe = true
        · simp only [revokeIds_append, mintIds_append, hR, hr1, hM, hm1, hw1, hw2,
            if_pos hs, revokeIds_cleanup, mintIds_cleanup, hbal]
          simp [mintIds, revokeIds]
        · simp only [revokeIds_append, mintIds_append, hR, hr1, hM, hm1, hw1, hw2,
            if_neg hs, hbal]
          simp [mintIds, revokeIds]
      rw [if_neg hvan] at hout
      by_cases hsus : C1.msg.m2_i2 = SUSPEND
      · rw [if_pos hsus] at hout
        subst hout; simp at hok
      rw [if_neg hsus] at hout
      subst hout
      have hveq : C1.msg.m2_i2 = v := by simpa using hok
      refine ⟨?_, ?_⟩
      · rw [← hveq]; exact hsus
      · try dsimp only
        by_cases hbuf : buf ≠ cr.buf
        · rw [if_pos hbuf]
          by_cases hs : cr.safe = true
          · simp only [revokeIds_append, mintIds_append, hR, hr1, hM, hm1,
              if_pos hs, revokeIds_cleanup, mintIds_cleanup, revokeIds_copyBack,
              mintIds_copyBack]
            simp [mintIds, revokeIds]
          · simp only [revokeIds_append, mintIds_append, hR, hr1, hM, hm1,
              if_neg hs, revokeIds_copyBack, mintIds_copyBack]
            simp [mintIds, revokeIds]
        · rw [if_neg hbuf]
          by_cases hs : cr.safe = true
          · simp only [revokeIds_append, mintIds_append, hR, hr1, hM, hm1,
              if_pos hs, revokeIds_cleanup, mintIds_cleanup]
            simp [mintIds, revokeIds]
          · simp only [revokeIds_append, mintIds_append, hR, hr1, hM, hm1,
              if_neg hs]
            simp [mintIds, revokeIds]

/-- C2: dev_bio aborts the server when invoked on behalf of anybody but
the file server itself; every normal return carries a status other than
SUSPEND with every minted grant revoked; and a driver that answers a
read or write with SUSPEND makes dev_bio abort the server. -/
theorem c2_dev_bio_no_suspend (env : Env) (st : St) (op dev proc_e : Int)
    (buf : Ptr) (pos bytes : Int) (out : RunOut Int)
    (hout : dev_bio env st op dev proc_e buf pos bytes = out) :
    (proc_e ≠ FS_PROC_NR → out = ⟨Outc.panic "doing dev_bio for non-self", st, []⟩) ∧
    (∀ v, out.res = Outc.ok v → v ≠ SUSPEND ∧ revokeIds out.evs = mintIds out.evs) ∧
    (∀ drv rep,
      proc_e = FS_PROC_NR →
      (op = DEV_READ ∨ op = DEV_WRITE) →
      (st.dmap (dev / 256 % 256).toNat).dmap_driver = drv →
      drv ≠ NONE →
      (st.dmap (dev / 256 % 256).toNat).dmap_io = IoT.gen →
      0 ≤ env.grant 0 →
      (∀ (ic : Nat) (m : Message), env.ipc ic drv m = SRes.ok rep) →
      rep.m2_i2 = SUSPEND →
      out.res = Outc.panic "dev_bio driver returned SUSPEND") := by
  refine ⟨?_, ?_, ?_⟩
  · intro hne
    simp only [dev_bio] at hout
    rw [if_pos hne] at hout
    exact hout.symm
  · intro v hok
    by_cases hpe : proc_e ≠ FS_PROC_NR
    · simp only [dev_bio] at hout
      rw [if_pos hpe] at hout
      subst hout
      simp at hok
    · simp only [dev_bio] at hout
      rw [if_neg hpe] at hout
      exact bioLoop_ok env op dev proc_e buf bytes 8 st pos 0 0 0 v out hout hok
  · intro drv rep hpe hop hdrv hne hio hg hipc hrep
    subst hpe
    simp only [dev_bio] at hout
    rw [if_neg (not_not_intro rfl)] at hout
    revert hout
    rw [show (8:Nat) = Nat.succ 7 from rfl]
    generalize (7:Nat) = nfu
    intro hout
    simp only [bioLoop] at hout
    rw [hdrv] at hout
    rw [if_neg hne] at hout
    have hconv := conv_rw_eq env st drv FS_PROC_NR buf bytes pos 0 op hop hg
    rw [hconv] at hout
    try dsimp only at hout
    rw [hio, dmapIoCall_gen] at hout
    rw [gen_io_ok env drv _ st 0 rep (hipc 0 _)] at hout
    try dsimp only at hout
    rw [hdrv] at hout
    rw [if_neg hne] at hout
    rw [if_pos hrep] at hout
    subst hout
    rfl

/-- Concrete instantiation of the C2 theorem: a driver that answers a
block read with SUSPEND makes dev_bio abort the server. -/
theorem c2_witness :
    (dev_bio (c3Env 7 { m2_i1 := 1, m2_i2 := SUSPEND } { m2_i1 := 1, m2_i2 := SUSPEND })
        baseSt DEV_READ 769 FS_PROC_NR (Ptr.addr 4096) 0 512).res =
      Outc.panic "dev_bio driver returned SUSPEND" :=
  (c2_dev_bio_no_suspend
      (c3Env 7 { m2_i1 := 1, m2_i2 := SUSPEND } { m2_i1 := 1, m2_i2 := SUSPEND })
      baseSt DEV_READ 769 FS_PROC_NR (Ptr.addr 4096) 0 512 _ rfl).2.2
    77 { m2_i1 := 1, m2_i2 := SUSPEND } rfl (Or.inl rfl) (by decide) (by decide)
    (by decide) (by decide) (by intro ic m; simp [c3Env]) rfl

end MxFS
